import Mathlib

/-!
Verification development for the autosig trade-execution control plane.

Shallow embedding of the Python sources: `trade_intent.py`, `dedupe_store.py`,
`paper_positions.py`, `preflight.py`, `strategy_rules.py`, `mode_manager.py`,
`signal_to_intent.py`, `review_queue.py`, `execution/router.py`,
`executors/paper_executor.py`, `executors/tradier_executor.py` and
`auto_mode.py`.

Modelling conventions:
- Python floats become rationals; Python ints become `Int`.
- File-backed JSONL ledgers become Lean lists in file (append) order; the
  functions that mutate them are written as state-passing pure functions.
- Ambient effects (clock, fresh UUIDs, broker responses, environment
  variables, the market-window oracle) become explicit parameters.
- Python string truthiness (`if not s`) is the test `s = ""`; `None` becomes
  `Option.none`.

Note on `auto_mode.py`: the file in the repository contains unresolved git
merge-conflict markers. The embedding follows the coherent
"Updated upstream" side of each conflicted region, together with the
`max_notional` load that both sides and `get_auto_status` agree on (the
upstream side reads `max_notional` without the conflicted definition line).
-/

/-- Python `needle in hay` over character lists: prefix test. -/
def charsIsPre : List Char → List Char → Bool
  | [], _ => true
  | _ :: _, [] => false
  | c :: cs, d :: ds => c == d && charsIsPre cs ds

/-- Python `needle in hay` over character lists: substring test. -/
def charsContains (needle : List Char) : List Char → Bool
  | [] => charsIsPre needle []
  | d :: ds => charsIsPre needle (d :: ds) || charsContains needle ds

/-- Python `needle in hay` for strings. -/
def strContains (hay needle : String) : Bool :=
  charsContains needle.data hay.data

/-- Python `str.upper()` (ASCII, as used by the sources). -/
def pyUpper (s : String) : String := ⟨s.data.map Char.toUpper⟩

/-- Python `str.lower()` (ASCII, as used by the sources). -/
def pyLower (s : String) : String := ⟨s.data.map Char.toLower⟩

/-- Python `s.startswith(pre)`. -/
def pyStartsWith (s pre : String) : Bool := charsIsPre pre.data s.data

/-- Python slicing `s[:n]`. -/
def pyTake (s : String) (n : Nat) : String := ⟨s.data.take n⟩

/-- Python `any(kw in text for kw in kws)`. -/
def anyContains (text : String) (kws : List String) : Bool :=
  kws.any (fun kw => strContains text kw)

/-- Format test for `datetime.strptime(s, "%Y-%m-%d")`: the embedding treats a
string as a parseable date iff it is ten characters `DDDD-DD-DD` (digits and
dashes). Two parseable strings denote the same calendar day iff they are
equal, which is all the sources compare. -/
def isYmd (s : String) : Bool :=
  s.length == 10 &&
    (List.range 10).all (fun i =>
      let c := s.data.getD i ' '
      if i == 4 || i == 7 then c == '-' else c.isDigit)

/- ===================== trade_intent.py ===================== -/

/-- OptionLeg from `trade_intent.py`: one leg of an options trade. -/
structure OptionLeg where
  side : String
  quantity : Int
  strike : ℚ
  option_type : String
  expiration : String
  deriving Repr, DecidableEq

/-- Metadata dictionary carried by a TradeIntent. The sources read only these
keys from the free-form `metadata` dict. -/
structure IntentMetadata where
  signal_type : Option String := none
  matched_position_id : Option String := none
  strategy : String := ""
  limit_kind : String := ""
  source : String := ""
  source_post_id : String := ""
  capital_recapture : Bool := false
  deriving Repr, DecidableEq

/-- TradeIntent from `trade_intent.py` (broker-agnostic trade request). -/
structure TradeIntent where
  id : String
  execution_mode : String := "PAPER"
  instrument_type : String := "STOCK"
  underlying : String
  symbol : Option String := none
  action : String := "BUY"
  order_type : String := "MARKET"
  limit_price : Option ℚ := none
  stop_price : Option ℚ := none
  limit_min : Option ℚ := none
  limit_max : Option ℚ := none
  quantity : Int := 1
  legs : List OptionLeg := []
  metadata : IntentMetadata := {}
  deriving Repr, DecidableEq

/-- TradeIntent.get_effective_limit_price from `trade_intent.py` lines 55-61:
explicit limit price if set, else `limit_max`, else `None`. -/
def TradeIntent.get_effective_limit_price (i : TradeIntent) : Option ℚ :=
  match i.limit_price with
  | some p => some p
  | none =>
    match i.limit_max with
    | some m => some m
    | none => none

/-- ExecutionResult from `trade_intent.py` (outcome of one TradeIntent). -/
structure ExecutionResult where
  intent_id : String
  status : String := "SUBMITTED"
  broker : String
  order_id : Option String := none
  message : Option String := none
  fill_price : Option ℚ := none
  filled_quantity : Option Int := none
  deriving Repr, DecidableEq

/- ===================== dedupe_store.py ===================== -/

/-- DedupeRecord: one line of `data/executed_signals.jsonl`
(see `mark_executed` in `dedupe_store.py`). -/
structure DedupeRecord where
  post_id : String
  executed_at : String := ""
  execution_mode : String
  trade_intent_id : String
  result_status : String
  underlying : Option String := none
  action : Option String := none
  deriving Repr, DecidableEq

/-- is_executed from `dedupe_store.py` lines 43-74: an empty id is never
executed; otherwise scan the ledger for a record with this `post_id`. -/
def is_executed (ledger : List DedupeRecord) (post_id : String) : Bool :=
  if post_id == "" then false
  else ledger.any (fun r => r.post_id == post_id)

/-- mark_executed from `dedupe_store.py` lines 111-146: append one record,
or do nothing when `post_id` is falsy. -/
def mark_executed (ledger : List DedupeRecord) (post_id : String)
    (executed_at : String) (execution_mode : String) (trade_intent_id : String)
    (result_status : String) (underlying : Option String)
    (action : Option String) : List DedupeRecord :=
  if post_id == "" then ledger
  else ledger ++ [{ post_id := post_id, executed_at := executed_at,
                    execution_mode := execution_mode,
                    trade_intent_id := trade_intent_id,
                    result_status := result_status,
                    underlying := underlying, action := action }]

/- ===================== mode_manager.py ===================== -/

/-- Environment-level safety flags read by `mode_manager.py`, already parsed
from their environment strings by `_get_env_bool` (defaults: LIVE_TRADING
false, DRY_RUN true, ALLOW_DUAL_MODE false, AUTO_LIVE_ENABLED false). -/
structure ModeEnv where
  live_trading : Bool
  dry_run : Bool
  allow_dual_mode : Bool
  auto_live_enabled : Bool
  primary_live_broker : String := "tradier"
  deriving Repr, DecidableEq

/-- is_live_allowed from `mode_manager.py` lines 28-38. -/
def is_live_allowed (env : ModeEnv) : Bool :=
  env.live_trading && !env.dry_run

/-- is_dual_allowed from `mode_manager.py` lines 41-51. -/
def is_dual_allowed (env : ModeEnv) : Bool :=
  if !is_live_allowed env then false else env.allow_dual_mode

/-- is_auto_live_enabled from `mode_manager.py` lines 54-61. -/
def is_auto_live_enabled (env : ModeEnv) : Bool :=
  env.auto_live_enabled

/-- get_requested_mode from `mode_manager.py` lines 72-77: settings value,
validated against VALID_MODES with fallback "paper". -/
def get_requested_mode (requested_setting : String) : String :=
  if requested_setting == "paper" || requested_setting == "live" ||
      requested_setting == "dual" then requested_setting else "paper"

/-- Return value of `get_effective_execution_mode`. -/
structure ModeDecision where
  requested : String
  effective : String
  live_allowed : Bool
  dual_allowed : Bool
  auto_live_enabled : Bool
  primary_broker : String
  message : String
  deriving Repr, DecidableEq

/-- get_effective_execution_mode from `mode_manager.py` lines 80-138. -/
def get_effective_execution_mode (env : ModeEnv) (requested_setting : String)
    (for_auto : Bool) : ModeDecision :=
  let requested := get_requested_mode requested_setting
  let live_allowed := is_live_allowed env
  let dual_allowed := is_dual_allowed env
  let auto_live_enabled := is_auto_live_enabled env
  let primary_broker := env.primary_live_broker
  let pair : String × String :=
    if for_auto && !auto_live_enabled then
      if requested == "live" || requested == "dual" then
        ("paper", "Auto mode restricted to paper trading. Set AUTO_LIVE_ENABLED=true for live auto trading.")
      else
        ("paper", "Auto mode using paper trading.")
    else if requested == "dual" then
      if dual_allowed then
        ("dual", "Dual mode active: Live trades on " ++ primary_broker ++ ", paper mirror for verification.")
      else if live_allowed then
        ("live", "Dual mode not allowed. Set ALLOW_DUAL_MODE=true. Falling back to live only.")
      else
        ("paper", "Live trading not enabled. Set LIVE_TRADING=true and DRY_RUN=false.")
    else if requested == "live" then
      if live_allowed then
        ("live", "Live trading active on " ++ primary_broker ++ ".")
      else
        ("paper", "Live trading not enabled. Set LIVE_TRADING=true and DRY_RUN=false.")
    else
      ("paper", "Paper trading mode active.")
  { requested := requested, effective := pair.1,
    live_allowed := live_allowed, dual_allowed := dual_allowed,
    auto_live_enabled := auto_live_enabled, primary_broker := primary_broker,
    message := pair.2 }

/- ===================== parsed signals (models.py / parser output) ===================== -/

/-- One leg dictionary inside a parsed signal. Fields are optional because the
sources access them with `dict.get` and site-specific defaults. -/
structure ParsedLeg where
  side : Option String := none
  quantity : Option Int := none
  strike : Option ℚ := none
  option_type : Option String := none
  expiration : Option String := none
  deriving Repr, DecidableEq

/-- Parsed-signal dictionary as consumed by `signal_to_intent.py`,
`strategy_rules.py`, `preflight.py` and `paper_positions.py`; field defaults
mirror the `dict.get` defaults at the use sites. -/
structure ParsedSignal where
  ticker : String := ""
  strategy : String := ""
  raw_text : String := ""
  expiration : Option String := none
  legs : List ParsedLeg := []
  limit_min : ℚ := 0
  limit_max : ℚ := 0
  limit_kind : String := "DEBIT"
  quantity : Int := 1
  size_pct : Option ℚ := none
  signal_type : String := ""
  deriving Repr, DecidableEq

/- ===================== paper_positions.py ===================== -/

/-- PositionLeg from `paper_positions.py`. -/
structure PositionLeg where
  side : String
  quantity : Int
  strike : ℚ
  option_type : String
  expiration : String
  deriving Repr, DecidableEq

/-- Snapshot of the intent stored on a position (`open_intent` /
`close_intent` dictionaries built in `executors/paper_executor.py`). -/
structure IntentSnapshot where
  id : String
  action : String
  order_type : String
  limit_price : Option ℚ
  fill_price : Option ℚ := none
  legs : List PositionLeg := []
  metadata : IntentMetadata := {}
  deriving Repr, DecidableEq

/-- PaperPosition from `paper_positions.py`. -/
structure PaperPosition where
  position_id : String
  status : String := "OPEN"
  opened_at : String := ""
  closed_at : Option String := none
  source_post_id : String := ""
  underlying : String
  instrument_type : String
  legs : List PositionLeg := []
  quantity : Int := 1
  open_intent : Option IntentSnapshot := none
  close_intent : Option IntentSnapshot := none
  deriving Repr, DecidableEq

/-- append_open_position from `paper_positions.py` lines 95-104. -/
def append_open_position (positions : List PaperPosition)
    (p : PaperPosition) : List PaperPosition :=
  positions ++ [p]

/-- mark_position_closed from `paper_positions.py` lines 107-119: close the
first OPEN position with this id and report success; report failure (state
unchanged) when no OPEN position has the id. -/
def mark_position_closed (positions : List PaperPosition)
    (position_id : String) (close_intent : IntentSnapshot)
    (now_iso : String) : Bool × List PaperPosition :=
  match positions with
  | [] => (false, [])
  | pos :: rest =>
    if pos.position_id == position_id && pos.status == "OPEN" then
      (true, { pos with
               status := "CLOSED",
               closed_at := some now_iso,
               close_intent := some close_intent } :: rest)
    else
      let r := mark_position_closed rest position_id close_intent now_iso
      (r.1, pos :: r.2)

/-- get_open_positions from `paper_positions.py` lines 122-124. -/
def get_open_positions (positions : List PaperPosition) : List PaperPosition :=
  positions.filter (fun p => p.status == "OPEN")

/-- get_open_positions_for_ticker from `paper_positions.py` lines 127-132
(case-insensitive underlying comparison). -/
def get_open_positions_for_ticker (positions : List PaperPosition)
    (ticker : String) : List PaperPosition :=
  positions.filter (fun p =>
    p.status == "OPEN" && pyUpper p.underlying == pyUpper ticker)

/-- Stable insertion into a sorted list: `a` goes before the first `b` with
`le a b` (ties keep the original order, as Python sort does). -/
def insertSorted (le : α → α → Bool) (a : α) : List α → List α
  | [] => [a]
  | b :: t => if le a b then a :: b :: t else b :: insertSorted le a t

/-- Stable sort (Python `list.sort`) by the Boolean order `le`, where
`le a b` means `a` may come before `b`; ties keep the original order. -/
def pySort (le : α → α → Bool) : List α → List α
  | [] => []
  | a :: t => insertSorted le a (pySort le t)

/-- Lexicographic Boolean order on `(expiration, strike, option_type)`
triples, matching Python tuple comparison in `_legs_match`. -/
def tripleLe (a b : String × ℚ × String) : Bool :=
  if a.1 < b.1 then true
  else if b.1 < a.1 then false
  else if a.2.1 < b.2.1 then true
  else if b.2.1 < a.2.1 then false
  else !(b.2.2 < a.2.2)

/-- _legs_match from `paper_positions.py` lines 151-170: same number of legs
and equal sorted `(expiration, strike, option_type)` multisets (side and
quantity ignored; signal-leg fields default per `dict.get`). -/
def legs_match (pos_legs : List PositionLeg) (signal_legs : List ParsedLeg) :
    Bool :=
  if pos_legs.isEmpty || signal_legs.isEmpty then false
  else if pos_legs.length != signal_legs.length then false
  else
    let pos_normalized :=
      pySort tripleLe (pos_legs.map (fun l => (l.expiration, l.strike, l.option_type)))
    let signal_normalized :=
      pySort tripleLe (signal_legs.map (fun l =>
        (l.expiration.getD "", l.strike.getD 0, l.option_type.getD "")))
    pos_normalized == signal_normalized

/-- Boolean order "opened more recently or equally recently" used to embed
Python `sort(key=lambda p: p.opened_at, reverse=True)` (stable descending). -/
def openedDesc (a b : PaperPosition) : Bool :=
  !(a.opened_at < b.opened_at)

/-- find_open_position_for_exit from `paper_positions.py` lines 173-202:
case-insensitive ticker filter, stable most-recent-first sort, exact leg
match when the signal carries legs, else most-recently-opened fallback. -/
def find_open_position_for_exit (positions : List PaperPosition)
    (parsed_signal : ParsedSignal) : Option PaperPosition :=
  let ticker := pyUpper parsed_signal.ticker
  if ticker == "" then none
  else
    let open_positions := get_open_positions_for_ticker positions ticker
    if open_positions.isEmpty then none
    else
      let sorted := pySort openedDesc open_positions
      let signal_legs := parsed_signal.legs
      let exact :=
        if signal_legs.isEmpty then none
        else sorted.find? (fun pos => legs_match pos.legs signal_legs)
      match exact with
      | some pos => some pos
      | none => sorted.head?

/- ===================== intent dictionaries (review_queue._intent_to_dict) ===================== -/

/-- One leg of a TradeIntent dictionary as consumed by `preflight.py`
(`dict.get` defaults at the use sites; `strike` may be absent). -/
structure IntentLegDict where
  side : String := ""
  quantity : Int := 0
  strike : Option ℚ := none
  option_type : String := ""
  expiration : String := ""
  deriving Repr, DecidableEq

/-- TradeIntent dictionary as produced by `_intent_to_dict` in
`review_queue.py` and consumed by `preflight.py`. -/
structure IntentDict where
  id : String := ""
  execution_mode : String := ""
  instrument_type : String := ""
  underlying : String := ""
  action : String := ""
  order_type : String := ""
  limit_price : Option ℚ := none
  quantity : Int := 0
  legs : List IntentLegDict := []
  metadata : IntentMetadata := {}
  deriving Repr, DecidableEq

/-- _intent_to_dict from `review_queue.py` lines 162-184. -/
def intent_to_dict (i : TradeIntent) : IntentDict :=
  { id := i.id, execution_mode := i.execution_mode,
    instrument_type := i.instrument_type, underlying := i.underlying,
    action := i.action, order_type := i.order_type,
    limit_price := i.limit_price, quantity := i.quantity,
    legs := i.legs.map (fun l =>
      { side := l.side, quantity := l.quantity, strike := some l.strike,
        option_type := l.option_type, expiration := l.expiration }),
    metadata := i.metadata }

/- ===================== strategy_rules.py ===================== -/

/-- is_exit_signal from `strategy_rules.py` lines 30-45. -/
def is_exit_signal (parsed_signal : ParsedSignal) (trade_intent : IntentDict) :
    Bool :=
  let st := pyUpper parsed_signal.signal_type
  if st == "EXIT" || st == "CLOSE" || st == "STC" || st == "BTC" then true
  else
    let action := pyUpper trade_intent.action
    if action == "CLOSE" || action == "STC" || action == "BTC" then true
    else
      let mst := pyUpper (trade_intent.metadata.signal_type.getD "")
      mst == "EXIT" || mst == "CLOSE"

/-- is_long_stock_entry from `strategy_rules.py` lines 48-58. -/
def is_long_stock_entry (parsed_signal : ParsedSignal)
    (trade_intent : IntentDict) : Bool :=
  if is_exit_signal parsed_signal trade_intent then false
  else
    let it := pyLower trade_intent.instrument_type
    if it != "stock" && it != "etf" then false
    else
      let action := pyUpper trade_intent.action
      action == "BUY" || action == "BTO" || action == "OPEN" || action == "ENTRY"

/-- is_single_leg_option_entry from `strategy_rules.py` lines 61-71. -/
def is_single_leg_option_entry (parsed_signal : ParsedSignal)
    (trade_intent : IntentDict) : Bool :=
  if is_exit_signal parsed_signal trade_intent then false
  else
    let it := pyLower trade_intent.instrument_type
    if it != "option" && it != "index_option" then false
    else trade_intent.legs.length == 1

/-- is_spread_entry from `strategy_rules.py` lines 74-89. -/
def is_spread_entry (parsed_signal : ParsedSignal)
    (trade_intent : IntentDict) : Bool :=
  if is_exit_signal parsed_signal trade_intent then false
  else
    let it := pyLower trade_intent.instrument_type
    if it == "spread" then true
    else if (it == "option" || it == "index_option") &&
        trade_intent.legs.length ≥ 2 then true
    else false

/-- is_spx_0dte from `strategy_rules.py` lines 92-120 (the ambient
`date.today()` is the explicit `today` parameter; an unparseable expiration
is skipped as in the source). -/
def is_spx_0dte (trade_intent : IntentDict) (today : String) : Bool :=
  let u := pyUpper trade_intent.underlying
  if u != "SPX" && u != "$SPX" && u != "SPXW" then false
  else if trade_intent.legs.isEmpty then false
  else
    trade_intent.legs.any (fun leg =>
      if leg.expiration == "" then false
      else if !isYmd leg.expiration then false
      else leg.expiration == today)

/-- check_risk_mode_allows from `strategy_rules.py` lines 137-170. -/
def check_risk_mode_allows (parsed_signal : ParsedSignal)
    (trade_intent : IntentDict) (risk_mode : String) (allow_0dte_spx : Bool)
    (today : String) : Bool × Option String :=
  if is_exit_signal parsed_signal trade_intent then (true, none)
  else if is_spx_0dte trade_intent today && risk_mode == "conservative" then
    (false, some "CONSERVATIVE mode blocks 0DTE SPX trades")
  else if is_spx_0dte trade_intent today && risk_mode == "balanced" then
    (false, some "BALANCED mode blocks 0DTE SPX trades")
  else if is_spx_0dte trade_intent today && risk_mode == "aggressive" &&
      !allow_0dte_spx then
    (false, some "0DTE SPX requires ALLOW_0DTE_SPX=true in AGGRESSIVE mode")
  else if risk_mode == "conservative" &&
      is_long_stock_entry parsed_signal trade_intent then
    (false, some "CONSERVATIVE mode blocks long stock entries")
  else if risk_mode == "conservative" &&
      is_single_leg_option_entry parsed_signal trade_intent then
    (false, some "CONSERVATIVE mode blocks single-leg options (undefined risk)")
  else (true, none)

/-- Per-mode caps from RISK_MODE_CAPS in `strategy_rules.py` (fallback
"balanced" as in `get_effective_caps`). -/
def risk_mode_caps (risk_mode : String) : ℚ × ℚ :=
  if risk_mode == "conservative" then (1, 1)
  else if risk_mode == "aggressive" then (5, 5)
  else (2, 3)

/-- get_effective_caps from `strategy_rules.py` lines 173-191: user settings
clamped to the mode maxima. -/
def get_effective_caps (risk_mode : String)
    (user_max_risk_pct user_trades_hour : ℚ) : ℚ × ℚ :=
  let caps := risk_mode_caps risk_mode
  (min user_max_risk_pct caps.1, min user_trades_hour caps.2)

/- ===================== settings_store.py (fields read by preflight) ===================== -/

/-- Settings dictionary as returned by `load_settings` in `settings_store.py`
restricted to the keys the embedded code reads; defaults are the
DEFAULT_SETTINGS values. -/
structure Settings where
  risk_mode : String := "aggressive"
  max_risk_pct_per_trade : ℚ := 5
  auto_max_trades_per_hour : ℚ := 5
  allow_0dte_spx : Bool := false
  max_daily_risk_pct : ℚ := 10
  max_open_positions : Int := 20
  requested_execution_mode : String := "paper"
  paper_mirror_enabled : Bool := false
  deriving Repr, DecidableEq

/-- Dictionary built by `_get_current_settings` in `preflight.py` lines 22-38. -/
structure CurrentSettings where
  risk_mode : String
  max_risk_pct : ℚ
  max_trades_hour : ℚ
  allow_0dte_spx : Bool
  max_daily_risk_pct : ℚ
  max_open_positions : Int
  deriving Repr, DecidableEq

/-- _get_current_settings from `preflight.py` lines 22-38. -/
def get_current_settings (settings : Settings) : CurrentSettings :=
  let risk_mode :=
    if settings.risk_mode == "conservative" ||
        settings.risk_mode == "balanced" ||
        settings.risk_mode == "aggressive" then settings.risk_mode
    else "balanced"
  let caps := get_effective_caps risk_mode settings.max_risk_pct_per_trade
    settings.auto_max_trades_per_hour
  { risk_mode := risk_mode,
    max_risk_pct := caps.1 / 100,
    max_trades_hour := caps.2,
    allow_0dte_spx := settings.allow_0dte_spx,
    max_daily_risk_pct := settings.max_daily_risk_pct / 100,
    max_open_positions := settings.max_open_positions }

/- ===================== preflight.py ===================== -/

/-- One named preflight check entry (the dicts appended to `checks` in
`preflight.py`). -/
structure Check where
  name : String
  ok : Bool
  summary : String
  deriving Repr, DecidableEq

/-- Leg loop of check_completeness (`preflight.py` lines 146-174): the first
leg missing a field decides; `i` is the 1-based leg number. -/
def completeness_leg_loop : List IntentLegDict → Int → Option Check
  | [], _ => none
  | leg :: rest, i =>
    if leg.expiration == "" then
      some ⟨"completeness", false, "Leg " ++ toString i ++ " missing expiration"⟩
    else if leg.strike == none then
      some ⟨"completeness", false, "Leg " ++ toString i ++ " missing strike"⟩
    else if leg.option_type == "" then
      some ⟨"completeness", false,
        "Leg " ++ toString i ++ " missing option type (CALL/PUT)"⟩
    else if leg.side == "" then
      some ⟨"completeness", false, "Leg " ++ toString i ++ " missing side (BUY/SELL)"⟩
    else completeness_leg_loop rest (i + 1)

/-- check_completeness from `preflight.py` lines 93-186. Every path of the
source appends exactly one entry to `checks`; the embedding returns that
entry. -/
def check_completeness (trade_intent : IntentDict)
    (_parsed_signal : ParsedSignal) : Check :=
  let instrument_type := pyLower trade_intent.instrument_type
  if instrument_type == "stock" || instrument_type == "etf" then
    let ticker := trade_intent.underlying
    let quantity := trade_intent.quantity
    if ticker == "" then
      ⟨"completeness", false, "Missing ticker for stock/ETF order"⟩
    else if quantity < 1 then
      ⟨"completeness", false,
        "Invalid quantity (" ++ toString quantity ++ ") for stock/ETF order"⟩
    else
      ⟨"completeness", true,
        "Stock order complete: " ++ ticker ++ " x" ++ toString quantity⟩
  else if instrument_type == "option" || instrument_type == "index_option" ||
      instrument_type == "spread" then
    let underlying := trade_intent.underlying
    let legs := trade_intent.legs
    if underlying == "" then
      ⟨"completeness", false, "Missing underlying for option order"⟩
    else if legs.isEmpty && trade_intent.metadata.signal_type.getD "" == "EXIT" &&
        (trade_intent.metadata.matched_position_id).getD "" == "" then
      ⟨"completeness", false, "EXIT signal has no legs and no matched position"⟩
    else
      match completeness_leg_loop legs 1 with
      | some c => c
      | none =>
        ⟨"completeness", true,
          "Option order complete: " ++ underlying ++ " with " ++
            toString legs.length ++ " leg(s)"⟩
  else
    ⟨"completeness", false, "Unknown instrument type: " ++ instrument_type⟩

/-- check_supported_assets from `preflight.py` lines 189-226. -/
def check_supported_assets (trade_intent : IntentDict) : Check :=
  let instrument_type := pyLower trade_intent.instrument_type
  let underlying := pyUpper trade_intent.underlying
  let supported :=
    instrument_type == "stock" || instrument_type == "option" ||
    instrument_type == "index_option" || instrument_type == "spread" ||
    instrument_type == "etf"
  if !supported then
    ⟨"supported_asset", false, "Unsupported instrument type: " ++ instrument_type⟩
  else if instrument_type == "index_option" &&
      !(underlying == "SPX" || underlying == "SPXW") then
    ⟨"supported_asset", false,
      "Only SPX index options supported, got: " ++ underlying⟩
  else if underlying == "BTC" || underlying == "ETH" || underlying == "DOGE" ||
      underlying == "SOL" || underlying == "/ES" || underlying == "/NQ" ||
      underlying == "/CL" || underlying == "/GC" ||
      pyStartsWith underlying "/" then
    ⟨"supported_asset", false,
      "Asset not supported: " ++ underlying ++ " (crypto/futures)"⟩
  else
    ⟨"supported_asset", true,
      "Asset supported: " ++ underlying ++ " (" ++ instrument_type ++ ")"⟩

/-- check_risk_mode from `preflight.py` lines 229-268. -/
def check_risk_mode (parsed_signal : ParsedSignal) (trade_intent : IntentDict)
    (settings : CurrentSettings) (today : String) : Check :=
  if trade_intent.metadata.signal_type.getD "" == "EXIT" then
    ⟨"risk_mode", true, "EXIT signal - always allowed regardless of risk mode"⟩
  else
    let risk_mode := settings.risk_mode
    let allow_0dte :=
      if risk_mode != "aggressive" then false else settings.allow_0dte_spx
    let r := check_risk_mode_allows parsed_signal trade_intent risk_mode
      allow_0dte today
    if !r.1 then
      ⟨"risk_mode", false, (r.2).getD ""⟩
    else
      ⟨"risk_mode", true,
        "Risk mode (" ++ pyUpper risk_mode ++ ") allows this trade"⟩

/-- check_risk_controls from `preflight.py` lines 271-294: returns the single
check entry together with the warnings it appends. Numeric percentages are
rendered by `toString`; the source formats them with one decimal. -/
def check_risk_controls (parsed_signal : ParsedSignal)
    (_trade_intent : IntentDict) (settings : CurrentSettings) :
    Check × List String :=
  let max_risk_pct := settings.max_risk_pct
  match parsed_signal.size_pct with
  | none =>
    let w := "No size_pct in signal, will use max " ++
      toString (max_risk_pct * 100) ++ "%"
    -- size_pct defaults to max_risk_pct, so the threshold test passes
    (⟨"risk_per_trade", true,
      "Trade risk " ++ toString (max_risk_pct * 100) ++ "% within limit (" ++
        toString (max_risk_pct * 100) ++ "% max)"⟩, [w])
  | some size_pct =>
    if size_pct > max_risk_pct then
      (⟨"risk_per_trade", false,
        "Trade risk " ++ toString (size_pct * 100) ++ "% exceeds max " ++
          toString (max_risk_pct * 100) ++ "%"⟩, [])
    else
      (⟨"risk_per_trade", true,
        "Trade risk " ++ toString (size_pct * 100) ++ "% within limit (" ++
          toString (max_risk_pct * 100) ++ "% max)"⟩, [])

/-- Leg loop of check_dte_guard (`preflight.py` lines 321-346); `i` is the
1-based leg number. -/
def dte_leg_loop (allow_0dte_spx : Bool) (today : String) :
    List IntentLegDict → Int → Option Check
  | [], _ => none
  | leg :: rest, i =>
    if leg.expiration == "" then dte_leg_loop allow_0dte_spx today rest (i + 1)
    else if !isYmd leg.expiration then
      some ⟨"dte_guard", false, "Invalid expiration format: " ++ leg.expiration⟩
    else if leg.expiration == today && !allow_0dte_spx then
      some ⟨"dte_guard", false,
        "0DTE SPX not allowed (leg " ++ toString i ++ " expires today)"⟩
    else dte_leg_loop allow_0dte_spx today rest (i + 1)

/-- check_dte_guard from `preflight.py` lines 297-352. -/
def check_dte_guard (trade_intent : IntentDict) (settings : CurrentSettings)
    (today : String) : Check :=
  let underlying := pyUpper trade_intent.underlying
  if underlying != "SPX" && underlying != "SPXW" then
    ⟨"dte_guard", true, "DTE guard not applicable (non-SPX)"⟩
  else if trade_intent.legs.isEmpty then
    ⟨"dte_guard", true, "DTE guard: no legs to check"⟩
  else
    match dte_leg_loop settings.allow_0dte_spx today trade_intent.legs 1 with
    | some c => c
    | none => ⟨"dte_guard", true, "DTE guard passed"⟩

/-- check_mode_guard from `preflight.py` lines 355-405. -/
def check_mode_guard (env : ModeEnv) (requested_setting : String)
    (execution_mode : String) : Check :=
  let mode := pyLower execution_mode
  if mode == "live" then
    if !is_live_allowed env then
      ⟨"mode_guard", false,
        "LIVE trading blocked: LIVE_TRADING=false or DRY_RUN=true"⟩
    else ⟨"mode_guard", true, "Live trading is enabled and allowed"⟩
  else if mode == "dual" then
    let mode_info := get_effective_execution_mode env requested_setting false
    if mode_info.effective != "dual" then
      ⟨"mode_guard", false, "DUAL mode not allowed: " ++ mode_info.message⟩
    else ⟨"mode_guard", true, "Dual mode is enabled and allowed"⟩
  else if mode == "paper" then
    ⟨"mode_guard", true, "Paper trading mode (always allowed)"⟩
  else ⟨"mode_guard", true, "Mode: " ++ mode⟩

/-- check_dedupe from `preflight.py` lines 408-432. -/
def check_dedupe (ledger : List DedupeRecord) (post_id : Option String) :
    Check :=
  match post_id with
  | none => ⟨"dedupe", true, "No post_id to dedupe"⟩
  | some pid =>
    if pid == "" then ⟨"dedupe", true, "No post_id to dedupe"⟩
    else if is_executed ledger pid then
      ⟨"dedupe", false,
        "Signal already executed (post_id: " ++ pyTake pid 20 ++ "...)"⟩
    else ⟨"dedupe", true, "Signal not previously executed"⟩

/-- Return value of `preflight_check`. -/
structure PreflightResult where
  ok : Bool
  checks : List Check
  blocked_reason : Option String
  warnings : List String
  deriving Repr, DecidableEq

/-- preflight_check from `preflight.py` lines 41-90: run the seven checks in
order, `ok` is the conjunction of the recorded checks, `blocked_reason` the
summary of the first failing one. Ambient state (dedupe ledger, settings,
mode environment, the current date) is passed explicitly. -/
def preflight_check (ledger : List DedupeRecord) (env : ModeEnv)
    (settings : Settings) (today : String) (parsed_signal : ParsedSignal)
    (trade_intent : IntentDict) (execution_mode : String)
    (post_id : Option String) : PreflightResult :=
  let current_settings := get_current_settings settings
  let rc := check_risk_controls parsed_signal trade_intent current_settings
  let checks : List Check :=
    [check_completeness trade_intent parsed_signal,
     check_supported_assets trade_intent,
     check_risk_mode parsed_signal trade_intent current_settings today,
     rc.1,
     check_dte_guard trade_intent current_settings today,
     check_mode_guard env settings.requested_execution_mode execution_mode,
     check_dedupe ledger post_id]
  let all_ok := checks.all (fun c => c.ok)
  let blocked_reason :=
    if all_ok then none
    else ((checks.filter (fun c => !c.ok)).head?).map (fun c => c.summary)
  { ok := all_ok, checks := checks, blocked_reason := blocked_reason,
    warnings := rc.2 }

/- ===================== signal_to_intent.py ===================== -/

/-- classify_signal_type from `signal_to_intent.py` lines 15-65. -/
def classify_signal_type (parsed_signal : ParsedSignal) : String :=
  let strategy := pyUpper parsed_signal.strategy
  let raw_text := pyLower parsed_signal.raw_text
  let exit_keywords := ["exit", "close", "take profit", "take profits",
    "cut position", "stop hit", "stopped out", "sell to close",
    "selling to close", "buy to close", "buying to close", "trim", "cut",
    "out of"]
  if strategy == "EXIT" then "EXIT"
  else if anyContains raw_text exit_keywords then "EXIT"
  else
    let entry_strategies := ["CALL_DEBIT_SPREAD", "PUT_DEBIT_SPREAD",
      "CALL_CREDIT_SPREAD", "PUT_CREDIT_SPREAD", "IRON_CONDOR", "LONG_STOCK",
      "LONG_OPTION", "CALL", "PUT"]
    let entry_keywords := ["buy to open", "sell to open", "opening",
      "new position", "entering", "going long", "going short", "debit spread",
      "credit spread", "iron condor"]
    if entry_strategies.any (fun s => strategy == s) then "ENTRY"
    else if anyContains raw_text entry_keywords then "ENTRY"
    else if !parsed_signal.legs.isEmpty &&
        anyContains strategy ["SPREAD", "CALL", "PUT", "OPTION"] then "ENTRY"
    else "UNKNOWN"

/-- has_complete_leg_details from `signal_to_intent.py` lines 67-87. -/
def has_complete_leg_details (parsed_signal : ParsedSignal) : Bool :=
  let legs := parsed_signal.legs
  if legs.isEmpty then false
  else if legs.any (fun leg =>
      leg.strike.getD 0 == 0 || leg.option_type.getD "" == "") then false
  else if parsed_signal.expiration.getD "" != "" then true
  else legs.all (fun leg => leg.expiration.getD "" != "")

/-- _determine_action from `signal_to_intent.py` lines 250-290. -/
def determine_action (strategy raw_text : String) : String :=
  let strategy_upper := pyUpper strategy
  let raw_lower := pyLower raw_text
  let exit_keywords := ["exit", "close", "take profit", "cut position",
    "selling to close", "buy to close"]
  let is_exit := anyContains raw_lower exit_keywords || strategy_upper == "EXIT"
  if is_exit then
    let credit_keywords := ["credit spread", "credit", "sold", "sell to open",
      "iron condor", "put credit", "call credit"]
    let is_credit_position := anyContains raw_lower credit_keywords
    if strContains raw_lower "buy to close" then "BUY_TO_CLOSE"
    else if strContains raw_lower "sell to close" ||
        strContains raw_lower "selling to close" then "SELL_TO_CLOSE"
    else if is_credit_position then "BUY_TO_CLOSE"
    else "SELL_TO_CLOSE"
  else if strategy_upper == "LONG_STOCK" || strategy_upper == "LONG_OPTION" then
    "BUY_TO_OPEN"
  else if strContains strategy_upper "DEBIT" then "BUY_TO_OPEN"
  else if strContains strategy_upper "CREDIT" then "SELL_TO_OPEN"
  else "BUY_TO_OPEN"

/-- _determine_instrument_type from `signal_to_intent.py` lines 293-313. -/
def determine_instrument_type (strategy _ticker : String)
    (legs : List ParsedLeg) : String :=
  let strategy_upper := pyUpper strategy
  if strategy_upper == "LONG_STOCK" then "STOCK"
  else if legs.length ≥ 2 then "SPREAD"
  else if legs.length == 1 || strategy_upper == "LONG_OPTION" ||
      strategy_upper == "EXIT" then "OPTION"
  else if strContains strategy_upper "SPREAD" then "SPREAD"
  else if anyContains strategy_upper ["CALL", "PUT", "OPTION"] then "OPTION"
  else "STOCK"

/-- _determine_order_type from `signal_to_intent.py` lines 316-320. -/
def determine_order_type (limit_min limit_max : ℚ) : String :=
  if limit_min > 0 || limit_max > 0 then "LIMIT" else "MARKET"

/-- _determine_limit_price from `signal_to_intent.py` lines 323-360. -/
def determine_limit_price (limit_min limit_max : ℚ) (limit_kind strategy : String) :
    Option ℚ :=
  let strategy_upper := pyUpper strategy
  if strategy_upper == "EXIT" then
    if limit_min > 0 then some limit_min
    else if limit_max > 0 then some limit_max
    else none
  else if pyUpper limit_kind == "DEBIT" || strContains strategy_upper "DEBIT" then
    if limit_max > 0 then some limit_max
    else if limit_min > 0 then some limit_min
    else none
  else if pyUpper limit_kind == "CREDIT" || strContains strategy_upper "CREDIT" then
    if limit_min > 0 then some limit_min
    else if limit_max > 0 then some limit_max
    else none
  else if limit_max > 0 then some limit_max
  else if limit_min > 0 then some limit_min
  else none

/-- _build_intent_legs from `signal_to_intent.py` lines 363-392
(`dict.get` defaults; leg expiration falls back to the signal-level one under
Python truthiness). -/
def build_intent_legs (legs_data : List ParsedLeg) (expiration : Option String) :
    List OptionLeg :=
  legs_data.map (fun leg =>
    let side0 := pyUpper (leg.side.getD "BUY")
    let side := if side0 == "BUY" || side0 == "SELL" then side0 else "BUY"
    let quantity := |leg.quantity.getD 1|
    let strike := leg.strike.getD 0
    let ot0 := pyUpper (leg.option_type.getD "CALL")
    let option_type := if ot0 == "CALL" || ot0 == "PUT" then ot0 else "CALL"
    let leg_exp :=
      match leg.expiration with
      | some s => if s != "" then s else (expiration.getD "")
      | none => expiration.getD ""
    { side := side, quantity := quantity, strike := strike,
      option_type := option_type, expiration := leg_exp })

/-- build_trade_intent from `signal_to_intent.py` lines 90-154. The fresh
UUID is the explicit `fresh_id` parameter. -/
def build_trade_intent (parsed_signal : ParsedSignal) (execution_mode : String)
    (fresh_id : String) : TradeIntent :=
  let ticker := parsed_signal.ticker
  let strategy := parsed_signal.strategy
  let legs_data := parsed_signal.legs
  let limit_min := parsed_signal.limit_min
  let limit_max := parsed_signal.limit_max
  let limit_kind := parsed_signal.limit_kind
  let quantity := parsed_signal.quantity
  let raw_text := parsed_signal.raw_text
  let exp_str : Option String :=
    match parsed_signal.expiration with
    | some s => if s != "" then some s else none
    | none => none
  { id := fresh_id,
    execution_mode := execution_mode,
    instrument_type := determine_instrument_type strategy ticker legs_data,
    underlying := pyUpper ticker,
    action := determine_action strategy raw_text,
    order_type := determine_order_type limit_min limit_max,
    limit_price := determine_limit_price limit_min limit_max limit_kind strategy,
    limit_min := if limit_min > 0 then some limit_min else none,
    limit_max := if limit_max > 0 then some limit_max else none,
    quantity := if quantity > 0 then quantity else 1,
    legs := build_intent_legs legs_data exp_str,
    metadata := { signal_type := some (classify_signal_type parsed_signal),
                  strategy := strategy, limit_kind := limit_kind,
                  source := "whop_parsed_signal" } }

/-- build_close_intent_from_position from `signal_to_intent.py` lines
157-221. -/
def build_close_intent_from_position (position : PaperPosition)
    (parsed_signal : ParsedSignal) (execution_mode : String)
    (fresh_id : String) : TradeIntent :=
  let original_action :=
    match position.open_intent with
    | some oi => oi.action
    | none => "BUY_TO_OPEN"
  let close_action :=
    if strContains original_action "SELL" then "BUY_TO_CLOSE"
    else "SELL_TO_CLOSE"
  let close_legs := position.legs.map (fun leg =>
    { side := if leg.side == "BUY" then "SELL" else "BUY",
      quantity := leg.quantity, strike := leg.strike,
      option_type := leg.option_type,
      expiration := leg.expiration : OptionLeg })
  let limit_min := parsed_signal.limit_min
  let limit_max := parsed_signal.limit_max
  let limit_price : Option ℚ :=
    if limit_min > 0 then some limit_min
    else if limit_max > 0 then some limit_max
    else none
  { id := fresh_id,
    execution_mode := execution_mode,
    instrument_type := position.instrument_type,
    underlying := pyUpper position.underlying,
    action := close_action,
    order_type := if limit_price != none then "LIMIT" else "MARKET",
    limit_price := limit_price,
    quantity := position.quantity,
    legs := close_legs,
    metadata := { signal_type := some "EXIT", strategy := "EXIT",
                  source := "position_close",
                  matched_position_id := some position.position_id } }

/-- resolve_exit_to_trade_intent from `signal_to_intent.py` lines 224-247:
`(intent?, matched position id?, error?)`. -/
def resolve_exit_to_trade_intent (positions : List PaperPosition)
    (parsed_signal : ParsedSignal) (execution_mode : String)
    (fresh_id : String) :
    Option TradeIntent × Option String × Option String :=
  match find_open_position_for_exit positions parsed_signal with
  | none =>
    let ticker := if parsed_signal.ticker == "" then "UNKNOWN"
      else parsed_signal.ticker
    (none, none, some ("No open PAPER position to close for ticker " ++ ticker))
  | some position =>
    (some (build_close_intent_from_position position parsed_signal
        execution_mode fresh_id),
      some position.position_id, none)

/- ===================== executors/base.py ===================== -/

/-- validate_intent from `executors/base.py` lines 35-55 (shared by all
executors). -/
def validate_intent (intent : TradeIntent) : Bool × String :=
  if intent.underlying == "" then (false, "underlying symbol is required")
  else if intent.quantity ≤ 0 then (false, "quantity must be positive")
  else if intent.order_type == "LIMIT" &&
      intent.get_effective_limit_price == none then
    (false, "limit_price required for LIMIT orders")
  else if (intent.order_type == "STOP" || intent.order_type == "STOP_LIMIT") &&
      intent.stop_price == none then
    (false, "stop_price required for STOP/STOP_LIMIT orders")
  else if intent.order_type == "STOP_LIMIT" &&
      intent.get_effective_limit_price == none then
    (false, "limit_price required for STOP_LIMIT orders")
  else (true, "")

/- ===================== executors/paper_executor.py ===================== -/

/-- _calculate_fill_price from `executors/paper_executor.py` lines 220-255
(Python numeric truthiness: a zero limit price is falsy). -/
def calculate_fill_price (intent : TradeIntent) : ℚ :=
  if intent.order_type == "LIMIT" && intent.limit_price.getD 0 != 0 then
    intent.limit_price.getD 0
  else if intent.limit_max != none && intent.limit_min != none &&
      intent.limit_max.getD 0 > 0 && intent.limit_min.getD 0 > 0 then
    (intent.limit_max.getD 0 + intent.limit_min.getD 0) / 2
  else if intent.limit_max != none && intent.limit_max.getD 0 > 0 then
    intent.limit_max.getD 0
  else if intent.limit_min != none && intent.limit_min.getD 0 > 0 then
    intent.limit_min.getD 0
  else if intent.instrument_type == "STOCK" then 100
  else if intent.instrument_type == "SPREAD" then 3 / 2
  else 5 / 2

/-- _create_open_position from `executors/paper_executor.py` lines 137-185:
build and append one OPEN PaperPosition for an ENTRY-class intent. The
fresh position UUID and the clock are explicit parameters. -/
def create_open_position (intent : TradeIntent) (fill_price : ℚ)
    (positions : List PaperPosition) (fresh_position_id now_iso : String) :
    String × List PaperPosition :=
  let position_legs := intent.legs.map (fun l =>
    { side := l.side, quantity := l.quantity, strike := l.strike,
      option_type := l.option_type, expiration := l.expiration : PositionLeg })
  let position : PaperPosition :=
    { position_id := fresh_position_id,
      status := "OPEN",
      opened_at := now_iso,
      source_post_id := intent.metadata.source_post_id,
      underlying := intent.underlying,
      instrument_type := intent.instrument_type,
      legs := position_legs,
      quantity := intent.quantity,
      open_intent := some
        { id := intent.id, action := intent.action,
          order_type := intent.order_type, limit_price := intent.limit_price,
          fill_price := some fill_price, legs := position_legs,
          metadata := intent.metadata } }
  (fresh_position_id, append_open_position positions position)

/-- _close_position from `executors/paper_executor.py` lines 187-218:
delegate to `mark_position_closed` with a close-intent snapshot. -/
def close_position (intent : TradeIntent) (position_id : String)
    (positions : List PaperPosition) (now_iso : String) :
    Bool × List PaperPosition :=
  let close_intent : IntentSnapshot :=
    { id := intent.id, action := intent.action,
      order_type := intent.order_type, limit_price := intent.limit_price,
      legs := intent.legs.map (fun l =>
        { side := l.side, quantity := l.quantity, strike := l.strike,
          option_type := l.option_type, expiration := l.expiration }) }
  mark_position_closed positions position_id close_intent now_iso

/-- PaperExecutor.execute from `executors/paper_executor.py` lines 46-135:
validate, compute the annotation fill price, create/close positions, and
return a SIMULATED result. The synthesized order id and fresh position id
are explicit parameters; the human-readable fill summary in `message` is
abbreviated to the status label. -/
def paper_execute (intent : TradeIntent) (positions : List PaperPosition)
    (order_id fresh_position_id now_iso : String) :
    ExecutionResult × List PaperPosition :=
  let v := validate_intent intent
  if !v.1 then
    ({ intent_id := intent.id, status := "REJECTED",
       broker := "paper_signal_replay",
       message := some ("Validation failed: " ++ v.2) }, positions)
  else
    let fill_price := calculate_fill_price intent
    let signal_type := intent.metadata.signal_type.getD "ENTRY"
    let is_capital_recapture := intent.metadata.capital_recapture
    let status_label :=
      if signal_type == "EXIT" || intent.action == "BUY_TO_CLOSE" ||
          intent.action == "SELL_TO_CLOSE" then
        if is_capital_recapture then
          "CAPITAL_RECAPTURE — SIMULATED_EXIT_AT_SIGNAL_TIME"
        else "SIMULATED_EXIT_AT_SIGNAL_TIME"
      else "SIMULATED_ENTRY_AT_SIGNAL_TIME"
    let stepped :=
      if signal_type == "ENTRY" || intent.action == "BUY_TO_OPEN" ||
          intent.action == "SELL_TO_OPEN" then
        let c := create_open_position intent fill_price positions
          fresh_position_id now_iso
        ("OPEN_PAPER — " ++ status_label, c.2)
      else if signal_type == "EXIT" || intent.action == "BUY_TO_CLOSE" ||
          intent.action == "SELL_TO_CLOSE" then
        match intent.metadata.matched_position_id with
        | some mid =>
          if mid != "" then (status_label, (close_position intent mid positions now_iso).2)
          else (status_label, positions)
        | none => (status_label, positions)
      else (status_label, positions)
    ({ intent_id := intent.id, status := "SIMULATED",
       broker := "paper_signal_replay",
       order_id := some order_id,
       message := some stepped.1,
       fill_price := some fill_price,
       filled_quantity := some intent.quantity }, stepped.2)

/- ===================== executors/tradier_executor.py ===================== -/

/-- Broker response `{id, status}` returned by the Tradier client
(external collaborator; see `tradier_client.py` interface). -/
structure BrokerResponse where
  id : Option String := none
  status : String := "unknown"
  deriving Repr, DecidableEq

/-- Python truthiness of `response.get("id")`. -/
def broker_id_truthy (resp : BrokerResponse) : Bool :=
  resp.id.getD "" != ""

/-- _execute_stock_order from `executors/tradier_executor.py` lines 120-169:
map an id-bearing broker response to SUBMITTED and an id-less one to ERROR
with a null order id. -/
def tradier_execute_stock (intent : TradeIntent) (resp : BrokerResponse) :
    ExecutionResult :=
  if broker_id_truthy resp then
    { intent_id := intent.id, status := "SUBMITTED", broker := "tradier",
      order_id := some (resp.id.getD ""),
      message := some ("Broker status: " ++ resp.status) }
  else
    { intent_id := intent.id, status := "ERROR", broker := "tradier",
      order_id := none,
      message := some ("Broker status: " ++ resp.status) }

/-- _execute_option_order from `executors/tradier_executor.py` lines 171-240:
reject leg-less or stop-type orders, otherwise map id presence exactly as the
stock path does. -/
def tradier_execute_option (intent : TradeIntent) (resp : BrokerResponse) :
    ExecutionResult :=
  if intent.legs.isEmpty then
    { intent_id := intent.id, status := "REJECTED", broker := "tradier",
      message := some "Option order requires at least one leg" }
  else if intent.order_type == "STOP" || intent.order_type == "STOP_LIMIT" then
    { intent_id := intent.id, status := "REJECTED", broker := "tradier",
      message := some ("Tradier does not support " ++ intent.order_type ++
        " orders for options") }
  else if broker_id_truthy resp then
    { intent_id := intent.id, status := "SUBMITTED", broker := "tradier",
      order_id := some (resp.id.getD ""),
      message := some ("Broker status: " ++ resp.status) }
  else
    { intent_id := intent.id, status := "ERROR", broker := "tradier",
      order_id := none,
      message := some ("Broker status: " ++ resp.status) }

/-- Result of the `client` property raising when DRY_RUN is set
(`executors/tradier_executor.py` lines 43-50): the RuntimeError unwinds to
the generic handler in `execute` (lines 110-118), giving an ERROR result. -/
def tradier_client_blocked (intent : TradeIntent) : ExecutionResult :=
  { intent_id := intent.id, status := "ERROR", broker := "tradier",
    order_id := none,
    message := some ("Unexpected error: PAPER MODE — Signal-based replay " ++
      "does not require broker connectivity. Tradier client initialization " ++
      "blocked when DRY_RUN=True.") }

/-- TradierExecutor.execute from `executors/tradier_executor.py` lines
56-118. When `dry_run` is set the lazy `client` property raises before any
network call, so both submission paths produce the client-blocked ERROR
result; the leg and order-type rejections in the option path happen before
the client is touched and still apply. -/
def tradier_execute (dry_run : Bool) (intent : TradeIntent)
    (resp : BrokerResponse) : ExecutionResult :=
  let v := validate_intent intent
  if !v.1 then
    { intent_id := intent.id, status := "REJECTED", broker := "tradier",
      message := some ("Validation failed: " ++ v.2) }
  else if intent.instrument_type == "STOCK" then
    if dry_run then tradier_client_blocked intent
    else tradier_execute_stock intent resp
  else if intent.instrument_type == "OPTION" then
    if intent.legs.isEmpty then
      { intent_id := intent.id, status := "REJECTED", broker := "tradier",
        message := some "Option order requires at least one leg" }
    else if intent.order_type == "STOP" || intent.order_type == "STOP_LIMIT" then
      { intent_id := intent.id, status := "REJECTED", broker := "tradier",
        message := some ("Tradier does not support " ++ intent.order_type ++
          " orders for options") }
    else if dry_run then tradier_client_blocked intent
    else tradier_execute_option intent resp
  else if intent.instrument_type == "SPREAD" ||
      intent.instrument_type == "OPTION_SPREAD" then
    { intent_id := intent.id, status := "SKIPPED", broker := "tradier",
      message := some ("SPREAD_SUBMIT_NOT_IMPLEMENTED - Multi-leg spread " ++
        "submission not yet supported") }
  else
    { intent_id := intent.id, status := "REJECTED", broker := "tradier",
      message := some ("Unsupported instrument type: " ++
        intent.instrument_type) }

/- ===================== executors/historical_executor.py ===================== -/

/-- HistoricalExecutor.execute from `executors/historical_executor.py` lines
40-105 (price table and synthesized order id are explicit parameters). -/
def historical_execute (intent : TradeIntent)
    (historical_prices : List (String × ℚ)) (order_id : String) :
    ExecutionResult :=
  let v := validate_intent intent
  if !v.1 then
    { intent_id := intent.id, status := "REJECTED", broker := "historical",
      message := some ("Validation failed: " ++ v.2) }
  else
    let symbol :=
      match intent.symbol with
      | some s => if s != "" then s else intent.underlying
      | none => intent.underlying
    let fill_price :=
      match (historical_prices.find? (fun p => p.1 == symbol)) with
      | some p => p.2
      | none =>
        match intent.get_effective_limit_price with
        | some q => q
        | none => 100
    { intent_id := intent.id, status := "SIMULATED", broker := "historical",
      order_id := some order_id,
      message := some "Historical backtest fill",
      fill_price := some fill_price,
      filled_quantity := some intent.quantity }

/- ===================== execution/router.py ===================== -/

/-- Executor selected by `get_executor` in `execution/router.py` lines
33-60. -/
inductive ExecutorKind where
  | tradier
  | paper
  | historical
  | unknownMode
  deriving Repr, DecidableEq

/-- get_executor from `execution/router.py` lines 33-60: TRADIER_ONLY
overrides everything, otherwise route by mode (an unknown mode raises in the
source). -/
def get_executor (broker_mode mode : String) : ExecutorKind :=
  if broker_mode == "TRADIER_ONLY" then .tradier
  else if mode == "PAPER" then .paper
  else if mode == "LIVE" then .tradier
  else if mode == "HISTORICAL" then .historical
  else .unknownMode

/-- Module-level configuration read by `execution/router.py`:
`config.DRY_RUN`, the routers own `LIVE_TRADING` env read, and
`EXECUTION_BROKER_MODE` from `settings_store.py`. -/
structure RouterConfig where
  dry_run : Bool
  live_trading : Bool
  broker_mode : String
  deriving Repr, DecidableEq

/-- execute_trade from `execution/router.py` lines 63-143: DRY_RUN
short-circuits to the paper-mode route (which TRADIER_ONLY still overrides
to the Tradier executor), LIVE downgrades to PAPER when live trading is
disabled, then the chosen executor runs. Consistency logging does not alter
the result. Returns the result and the updated position ledger. -/
def execute_trade (cfg : RouterConfig) (intent : TradeIntent)
    (positions : List PaperPosition) (resp : BrokerResponse)
    (historical_prices : List (String × ℚ))
    (order_id fresh_position_id now_iso : String) :
    ExecutionResult × List PaperPosition :=
  let runExec : ExecutorKind → ExecutionResult × List PaperPosition :=
    fun kind =>
      match kind with
      | .tradier => (tradier_execute cfg.dry_run intent resp, positions)
      | .paper => paper_execute intent positions order_id fresh_position_id now_iso
      | .historical => (historical_execute intent historical_prices order_id, positions)
      | .unknownMode =>
        -- unreachable for the Literal execution modes of TradeIntent
        ({ intent_id := intent.id, status := "ERROR", broker := "unknown",
           message := some "Unknown execution mode" }, positions)
  if cfg.dry_run then
    runExec (get_executor cfg.broker_mode "PAPER")
  else
    let mode :=
      if intent.execution_mode == "LIVE" && !cfg.live_trading then "PAPER"
      else intent.execution_mode
    runExec (get_executor cfg.broker_mode mode)

/- ===================== review_queue.py ===================== -/

/-- One stored line of `logs/alerts_parsed.jsonl` as read by
`list_recent_signals` (file order, oldest first). `parsed_present` models
Python truthiness of the `parsed_signal` dict. -/
structure SignalEntry where
  post_id : String := ""
  ts_iso : String := ""
  parsed_signal : ParsedSignal := {}
  parsed_present : Bool := true
  classification : String := ""
  deriving Repr, DecidableEq

/-- One entry of the list returned by `list_recent_signals`. -/
structure ListedSignal where
  post_id : String
  ts_iso : String
  parsed_signal : ParsedSignal
  parsed_present : Bool
  classification : String
  signal_type : String
  ticker : String
  strategy : String
  already_executed : Bool
  deriving Repr, DecidableEq

/-- list_recent_signals from `review_queue.py` lines 31-84: newest first
(the stored list is reversed), truncated to `limit`, with
`already_executed` recomputed from the dedupe ledger on every call. -/
def list_recent_signals (ledger : List DedupeRecord)
    (alerts : List SignalEntry) (limit : Nat) : List ListedSignal :=
  let entries := alerts.map (fun e =>
    let signal_type :=
      if e.classification == "SIGNAL" && e.parsed_present then
        classify_signal_type e.parsed_signal
      else "UNKNOWN"
    let already_executed :=
      if e.post_id != "" then is_executed ledger e.post_id else false
    { post_id := e.post_id, ts_iso := e.ts_iso,
      parsed_signal := e.parsed_signal, parsed_present := e.parsed_present,
      classification := e.classification, signal_type := signal_type,
      ticker := e.parsed_signal.ticker, strategy := e.parsed_signal.strategy,
      already_executed := already_executed : ListedSignal })
  entries.reverse.take limit

/-- Return value of `build_intent_and_preflight`. -/
structure BuildResult where
  trade_intent : Option IntentDict
  trade_intent_error : Option String
  preflight_result : Option PreflightResult
  matched_position_id : Option String
  deriving Repr, DecidableEq

/-- build_intent_and_preflight from `review_queue.py` lines 87-159. The
pydantic `gt=0` constraint on OptionLeg quantity is the one constructor
exception reachable here; it surfaces as `trade_intent_error` exactly as the
`except` branch of the source does. -/
def build_intent_and_preflight (ledger : List DedupeRecord) (env : ModeEnv)
    (settings : Settings) (positions : List PaperPosition)
    (entry : ListedSignal) (execution_mode : String)
    (today fresh_intent_id : String) : BuildResult :=
  if entry.classification != "SIGNAL" || !entry.parsed_present then
    { trade_intent := none,
      trade_intent_error := some "Not a valid SIGNAL classification",
      preflight_result := none, matched_position_id := none }
  else
    let parsed_signal := entry.parsed_signal
    let signal_type := classify_signal_type parsed_signal
    let mode_literal :=
      if pyLower execution_mode == "paper" then "PAPER" else "LIVE"
    let built : Option TradeIntent × Option String × Option String :=
      if signal_type == "EXIT" then
        if has_complete_leg_details parsed_signal then
          (some (build_trade_intent parsed_signal mode_literal fresh_intent_id),
            none, none)
        else
          let r := resolve_exit_to_trade_intent positions parsed_signal
            mode_literal fresh_intent_id
          match r.1 with
          | some obj => (some obj, r.2.1, none)
          | none =>
            (none, none,
              some ((r.2.2).getD "Could not resolve EXIT to open position"))
      else
        (some (build_trade_intent parsed_signal mode_literal fresh_intent_id),
          none, none)
    let guarded : Option TradeIntent × Option String × Option String :=
      match built.1 with
      | some obj =>
        if obj.legs.any (fun l => l.quantity ≤ 0) then
          (none, none, some "OptionLeg quantity must be greater than 0")
        else built
      | none => built
    match guarded.1 with
    | some obj =>
      let d := intent_to_dict obj
      { trade_intent := some d,
        trade_intent_error := none,
        preflight_result := some (preflight_check ledger env settings today
          parsed_signal d execution_mode (some entry.post_id)),
        matched_position_id := guarded.2.1 }
    | none =>
      { trade_intent := none,
        trade_intent_error := guarded.2.2,
        preflight_result := none,
        matched_position_id := guarded.2.1 }

/-- record_review_action entry from `review_queue.py` lines 187-227. -/
structure ReviewAction where
  ts_iso : String
  post_id : String
  action : String
  mode : Option String := none
  notes : Option String := none
  trade_intent_id : Option String := none
  ticker : Option String := none
  preflight_ok : Option Bool := none
  preflight_blocked_reason : Option String := none
  result_status : Option String := none
  result_message : Option String := none
  deriving Repr, DecidableEq

/- ===================== auto_mode.py ===================== -/

/-- Environment and oracle inputs read by `auto_mode.py` on a tick:
`config.DRY_RUN` / `config.LIVE_TRADING`, `EXECUTION_BROKER_MODE`, the
kill-switch truthiness, AUTO_MODE_ENABLED, the three ceilings (defaults 10,
3 and 50000), the market-window oracle, and the ambient inputs the nested
calls need (mode flags for preflight, user settings, historical prices). -/
structure AutoConfig where
  dry_run : Bool
  live_trading : Bool
  broker_mode : String
  kill_switch : Bool
  auto_enabled_env : Bool
  max_daily : Int := 10
  max_hourly : Int := 3
  max_notional : ℚ := 50000
  within_window : Bool
  window_reason : Option String := none
  mode_env : ModeEnv
  settings : Settings
  historical_prices : List (String × ℚ) := []
  deriving Repr, DecidableEq

/-- _validate_auto_mode_safety from `auto_mode.py` lines 35-62: the four
fail-closed invariants, with the failure strings of the source. -/
def validate_auto_mode_safety (cfg : AutoConfig) : Bool × List String :=
  let failures :=
    (if !cfg.dry_run then
      ["DRY_RUN must be True (currently False) - Auto Mode requires paper trading only"]
     else []) ++
    (if cfg.live_trading then
      ["LIVE_TRADING must be False (currently True) - Auto Mode cannot run with live trading enabled"]
     else []) ++
    (if cfg.broker_mode != "TRADIER_ONLY" then
      ["BROKER_MODE must be TRADIER_ONLY (currently " ++ cfg.broker_mode ++ ")"]
     else []) ++
    (if cfg.kill_switch then
      ["AUTO_MODE_KILL_SWITCH is enabled - Auto Mode is globally disabled"]
     else [])
  (failures.isEmpty, failures)

/-- Counters file `data/auto_counters.json` (`_load_counters` defaults in
`auto_mode.py` lines 148-168). -/
structure Counters where
  trades_today : Int := 0
  trades_this_hour : Int := 0
  notional_today : ℚ := 0
  last_trade_date : Option String := none
  last_trade_hour : Option String := none
  last_tick_time : Option String := none
  last_action : Option String := none
  deriving Repr, DecidableEq

/-- _reset_counters_if_needed from `auto_mode.py` lines 178-192: trades and
notional reset when the calendar-day key changes, the hourly counter when
the hour-bucket key changes. -/
def reset_counters_if_needed (c : Counters) (today current_hour : String) :
    Counters :=
  let c1 :=
    if c.last_trade_date != some today then
      { c with trades_today := 0, notional_today := 0,
               last_trade_date := some today }
    else c
  if c1.last_trade_hour != some current_hour then
    { c1 with trades_this_hour := 0, last_trade_hour := some current_hour }
  else c1

/-- Clock values consumed by one tick (`datetime.now()` projections). -/
structure NowInfo where
  today : String
  current_hour : String
  now_iso : String
  deriving Repr, DecidableEq

/-- Fresh identifiers consumed by one tick (`uuid.uuid4()` draws). -/
structure FreshIds where
  intent_id : String
  order_id : String
  position_id : String
  deriving Repr, DecidableEq

/-- Mutable state touched by `auto_tick`: the module flags, the counters
file, the dedupe ledger, the paper-position ledger, the parsed-alert log it
reads, and the review-action log it appends to. The observational
`_daily_metrics` dict feeds only the daily summary log and is not
modelled. -/
structure AutoState where
  auto_enabled : Bool
  safety_checks_passed : Bool
  counters : Counters
  ledger : List DedupeRecord
  positions : List PaperPosition
  alerts : List SignalEntry
  review_actions : List ReviewAction
  deriving Repr, DecidableEq

/-- Dictionary returned by `auto_tick`. -/
structure TickResult where
  action : String
  reason : Option String := none
  ticker : Option String := none
  post_id : Option String := none
  status : Option String := none
  deriving Repr, DecidableEq

/-- Success statuses of the upstream branch at `auto_mode.py` line 1152:
only these lead to `mark_executed` and the counter updates. -/
def auto_success_statuses : List String := ["filled", "accepted", "success"]

/-- Execution stage of auto_tick (`auto_mode.py` lines 1061-1230, upstream
side): dedupe check, intent build plus preflight, routing to the executor,
and post-execution bookkeeeping for the selected signal. `counters0` is the
already-reset counters dict with `last_tick_time` stamped. -/
def auto_tick_selected (cfg : AutoConfig) (now : NowInfo) (fresh : FreshIds)
    (resp : BrokerResponse) (st : AutoState) (counters0 : Counters)
    (sel : ListedSignal) : TickResult × AutoState :=
  let post_id := sel.post_id
  let ticker := sel.ticker
  if is_executed st.ledger post_id then
    let counters1 := { counters0 with
      last_action := some ("SKIP: " ++ ticker ++ " already executed (dedupe)") }
    ({ action := "skip", reason := some "Already executed (dedupe)" },
      { st with counters := counters1 })
  else
    let built := build_intent_and_preflight st.ledger cfg.mode_env
      cfg.settings st.positions sel "paper" now.today fresh.intent_id
    match built.trade_intent with
    | none =>
      let error := built.trade_intent_error.getD "Unknown error"
      let counters1 := { counters0 with
        last_action := some ("SKIP: " ++ ticker ++ " - " ++ error) }
      ({ action := "skip", reason := some error, ticker := some ticker },
        { st with counters := counters1 })
    | some trade_intent_dict =>
      let preflight_result := built.preflight_result
      if (preflight_result.map (fun r => !r.ok)).getD false then
        let blocked :=
          ((preflight_result.map (fun r => r.blocked_reason)).getD none).getD
            "Preflight failed"
        let counters1 := { counters0 with
          last_action := some ("BLOCKED: " ++ ticker ++ " - " ++ blocked) }
        ({ action := "blocked", reason := some blocked,
           ticker := some ticker },
          { st with counters := counters1 })
      else
        -- accepted: rebuild the TradeIntent object from the dict
        -- (auto_mode.py lines 1121-1144; limit_min/limit_max are not in the
        -- dict, so the rebuilt intent leaves them None)
        let legs : List OptionLeg := trade_intent_dict.legs.map (fun l =>
          { side := l.side, quantity := l.quantity,
            strike := l.strike.getD 0, option_type := l.option_type,
            expiration := l.expiration })
        let trade_intent : TradeIntent :=
          { id := trade_intent_dict.id,
            execution_mode := "PAPER",
            instrument_type :=
              if trade_intent_dict.instrument_type == "" then "option"
              else trade_intent_dict.instrument_type,
            underlying := trade_intent_dict.underlying,
            action :=
              if trade_intent_dict.action == "" then "BUY_TO_OPEN"
              else trade_intent_dict.action,
            order_type :=
              if trade_intent_dict.order_type == "" then "MARKET"
              else trade_intent_dict.order_type,
            limit_price := trade_intent_dict.limit_price,
            quantity := trade_intent_dict.quantity,
            legs := legs,
            metadata := trade_intent_dict.metadata }
        let router_cfg : RouterConfig :=
          { dry_run := cfg.dry_run, live_trading := cfg.live_trading,
            broker_mode := cfg.broker_mode }
        let ex := execute_trade router_cfg trade_intent st.positions resp
          cfg.historical_prices fresh.order_id fresh.position_id
          now.now_iso
        let execution_result := ex.1
        let st := { st with positions := ex.2 }
        if auto_success_statuses.contains execution_result.status then
          let ledger1 := mark_executed st.ledger post_id now.now_iso
            "paper" trade_intent.id execution_result.status
            (some trade_intent.underlying) none
          let notional : ℚ :=
            if execution_result.fill_price.getD 0 != 0 then
              execution_result.fill_price.getD 0 *
                (execution_result.filled_quantity.getD 0 : ℚ) * 100
            else if trade_intent.limit_price.getD 0 != 0 then
              trade_intent.limit_price.getD 0 * (trade_intent.quantity : ℚ) * 100
            else if trade_intent.limit_max.getD 0 != 0 then
              trade_intent.limit_max.getD 0 * (trade_intent.quantity : ℚ) * 100
            else 0
          let counters1 := { counters0 with
            trades_today := counters0.trades_today + 1,
            trades_this_hour := counters0.trades_this_hour + 1,
            notional_today := counters0.notional_today + notional,
            last_action := some ("EXECUTED: " ++ ticker ++ " (" ++
              execution_result.status ++ ")") }
          let review : ReviewAction :=
            { ts_iso := now.now_iso, post_id := post_id,
              action := "AUTO_PAPER", mode := some "paper",
              notes := some "Auto mode execution",
              ticker := some ticker,
              preflight_ok := preflight_result.map (fun r => r.ok),
              preflight_blocked_reason :=
                (preflight_result.map (fun r => r.blocked_reason)).getD none,
              result_status := some execution_result.status,
              result_message := execution_result.message }
          ({ action := "executed", ticker := some ticker,
             post_id := some post_id,
             status := some execution_result.status },
            { st with
              ledger := ledger1,
              counters := counters1,
              review_actions := st.review_actions ++ [review] })
        else
          let counters1 := { counters0 with
            last_action := some ("FAILED: " ++ ticker ++ " - " ++
              (execution_result.message.getD "")) }
          ({ action := "failed", ticker := some ticker,
             reason := execution_result.message },
            { st with counters := counters1 })

/-- Signal-selection stage of auto_tick (`auto_mode.py` lines 1031-1059,
upstream side): pick the newest unexecuted ENTRY among the listed SIGNAL
entries (the EXIT arm of the source loop is `pass`), idle when none. -/
def auto_tick_gated (cfg : AutoConfig) (now : NowInfo) (fresh : FreshIds)
    (resp : BrokerResponse) (st : AutoState) (counters0 : Counters) :
    TickResult × AutoState :=
  let signals := list_recent_signals st.ledger st.alerts 50
  let selected := signals.find? (fun sig =>
    sig.classification == "SIGNAL" && !sig.already_executed &&
    sig.signal_type == "ENTRY")
  match selected with
  | none =>
    let counters1 := { counters0 with
      last_action := some "IDLE: No executable signals" }
    ({ action := "idle", reason := some "No executable signals" },
      { st with counters := counters1 })
  | some sel => auto_tick_selected cfg now fresh resp st counters0 sel

/-- auto_tick from `auto_mode.py` lines 910-1230 ("Updated upstream" side of
the merge conflicts; `max_notional` as loaded by `get_auto_status` and the
stashed side, default 50000): safety re-validation, counter reset, enabled
and window gates, the three rate-limit ceilings, then the selection and
execution stages. -/
def auto_tick (cfg : AutoConfig) (now : NowInfo) (fresh : FreshIds)
    (resp : BrokerResponse) (st : AutoState) : TickResult × AutoState :=
  let safety := validate_auto_mode_safety cfg
  if !safety.1 then
    -- fail-closed branch: disable only on a passing-to-failing transition
    let st1 :=
      if st.safety_checks_passed then
        { st with auto_enabled := false, safety_checks_passed := false }
      else st
    let failure0 := safety.2.headD ""
    let st2 := { st1 with counters := { st1.counters with
      last_action := some ("BLOCKED: Safety check failed - " ++ failure0) } }
    ({ action := "blocked",
       reason := some ("Safety check failed: " ++ failure0) }, st2)
  else
    let st := { st with safety_checks_passed := true }
    let counters0 := reset_counters_if_needed st.counters now.today
      now.current_hour
    let counters0 := { counters0 with last_tick_time := some now.now_iso }
    if !st.auto_enabled && !cfg.auto_enabled_env then
      let counters1 := { counters0 with
        last_action := some "SKIP: Auto mode disabled" }
      ({ action := "skip", reason := some "Auto mode disabled" },
        { st with counters := counters1 })
    else if !cfg.within_window then
      let window_reason := cfg.window_reason.getD "Outside trading window"
      let counters1 := { counters0 with
        last_action := some ("PAUSE: " ++ window_reason) }
      ({ action := "pause", reason := some window_reason },
        { st with counters := counters1 })
    else if counters0.trades_today ≥ cfg.max_daily then
      let counters1 := { counters0 with
        last_action := some ("LIMIT: Daily trade limit reached (" ++
          toString cfg.max_daily ++ ")") }
      ({ action := "limit",
         reason := some ("Daily limit reached (" ++ toString cfg.max_daily ++ ")") },
        { st with counters := counters1 })
    else if counters0.trades_this_hour ≥ cfg.max_hourly then
      let counters1 := { counters0 with
        last_action := some ("LIMIT: Hourly limit reached (" ++
          toString cfg.max_hourly ++ ")") }
      ({ action := "limit",
         reason := some ("Hourly limit reached (" ++ toString cfg.max_hourly ++ ")") },
        { st with counters := counters1 })
    else if counters0.notional_today ≥ cfg.max_notional then
      let counters1 := { counters0 with
        last_action := some ("LIMIT: Daily notional limit reached ($" ++
          toString cfg.max_notional ++ ")") }
      ({ action := "limit",
         reason := some ("Daily notional limit reached ($" ++
           toString cfg.max_notional ++ ")") },
        { st with counters := counters1 })
    else
      auto_tick_gated cfg now fresh resp st counters0

/- ===================== theorems ===================== -/

/-- Effective-limit-price accessor as the spec words it (explicit limit,
then range maximum, then range minimum, then none) — for comparison with
`TradeIntent.get_effective_limit_price` as implemented. -/
def spec_effective_limit_price (i : TradeIntent) : Option ℚ :=
  match i.limit_price with
  | some p => some p
  | none =>
    match i.limit_max with
    | some m => some m
    | none =>
      match i.limit_min with
      | some mn => some mn
      | none => none

/-- Intent with only a range minimum set: the implemented accessor ignores
`limit_min`. -/
def intent_min_only : TradeIntent :=
  { id := "i-min", underlying := "SPY", limit_min := some (3 / 2) }

/-- C9 counterexample: at an intent whose only price field is the range
minimum, the implemented accessor returns none while the claimed precedence
(explicit limit, then range maximum, then range minimum, then none) returns
the range minimum. -/
theorem C9_counterexample :
    intent_min_only.limit_price = none ∧
    intent_min_only.limit_max = none ∧
    intent_min_only.limit_min = some (3 / 2) ∧
    TradeIntent.get_effective_limit_price intent_min_only = none ∧
    spec_effective_limit_price intent_min_only = some (3 / 2) := by
  refine ⟨rfl, rfl, rfl, rfl, rfl⟩

/-- C9 (amended): get_effective_limit_price returns the explicit limit price
when set, otherwise the range maximum field verbatim; the range minimum is
never consulted. -/
theorem C9_price_precedence (i : TradeIntent) :
    (∀ p, i.limit_price = some p →
      TradeIntent.get_effective_limit_price i = some p) ∧
    (i.limit_price = none →
      TradeIntent.get_effective_limit_price i = i.limit_max) ∧
    (∀ v, TradeIntent.get_effective_limit_price { i with limit_min := v } =
      TradeIntent.get_effective_limit_price i) := by
  refine ⟨fun p hp => ?_, fun hn => ?_, fun v => ?_⟩
  · simp [TradeIntent.get_effective_limit_price, hp]
  · simp [TradeIntent.get_effective_limit_price, hn]
    cases i.limit_max <;> rfl
  · simp [TradeIntent.get_effective_limit_price]

/-- Witness for C9_price_precedence at a concrete intent with an explicit
limit price. -/
theorem C9_price_precedence_witness :
    TradeIntent.get_effective_limit_price
      { id := "i-w", underlying := "SPY", limit_price := some 2 } = some 2 :=
  (C9_price_precedence
    { id := "i-w", underlying := "SPY", limit_price := some 2 }).1 2 rfl

/-- C10: an empty signal identity is invisible to the dedupe mechanism —
`is_executed` is false for the empty id on any ledger, `mark_executed`
appends nothing for the empty id, and the preflight dedupe check passes both
when no post id is supplied and when it is empty, so no DedupeRecord ever
guards such a signal. -/
theorem C10_empty_identity_unprotected :
    ∀ (ledger : List DedupeRecord) (ts mode iid status : String)
      (u a : Option String),
      is_executed ledger "" = false ∧
      mark_executed ledger "" ts mode iid status u a = ledger ∧
      (check_dedupe ledger none).ok = true ∧
      (check_dedupe ledger (some "")).ok = true := by
  intro ledger ts mode iid status u a
  refine ⟨rfl, rfl, rfl, rfl⟩

/-- C8: in the live Tradier path, a SUBMITTED result always carries the
non-empty broker order id, and an id-less broker response yields ERROR with
a null order id — for both the stock and the single-leg option submission
functions. -/
theorem C8_submitted_has_order_id (intent : TradeIntent)
    (resp : BrokerResponse) :
    ((tradier_execute_stock intent resp).status = "SUBMITTED" →
      ∃ s, (tradier_execute_stock intent resp).order_id = some s ∧ s ≠ "") ∧
    (broker_id_truthy resp = false →
      (tradier_execute_stock intent resp).status = "ERROR" ∧
      (tradier_execute_stock intent resp).order_id = none) ∧
    ((tradier_execute_option intent resp).status = "SUBMITTED" →
      ∃ s, (tradier_execute_option intent resp).order_id = some s ∧ s ≠ "") ∧
    (intent.legs.isEmpty = false →
      (intent.order_type == "STOP" || intent.order_type == "STOP_LIMIT") = false →
      broker_id_truthy resp = false →
      (tradier_execute_option intent resp).status = "ERROR" ∧
      (tradier_execute_option intent resp).order_id = none) := by
  constructor
  · intro h
    by_cases ht : broker_id_truthy resp
    · refine ⟨resp.id.getD "", ?_, ?_⟩
      · simp [tradier_execute_stock, ht]
      · simpa [broker_id_truthy] using ht
    · exfalso
      simp [tradier_execute_stock, ht] at h
  constructor
  · intro h
    constructor <;> simp [tradier_execute_stock, h]
  constructor
  · intro h
    by_cases hlegs : intent.legs.isEmpty
    · exfalso; simp [tradier_execute_option, hlegs] at h
    · by_cases hstop : intent.order_type == "STOP" ||
        intent.order_type == "STOP_LIMIT"
      · exfalso; simp [tradier_execute_option, hlegs, hstop] at h
      · by_cases ht : broker_id_truthy resp
        · refine ⟨resp.id.getD "", ?_, ?_⟩
          · simp [tradier_execute_option, hlegs, hstop, ht]
          · simpa [broker_id_truthy] using ht
        · exfalso; simp [tradier_execute_option, hlegs, hstop, ht] at h
  · intro hlegs hstop ht
    constructor <;> simp [tradier_execute_option, hlegs, hstop, ht]

/-- Stock intent used in witnesses for the live execution path. -/
def stock_intent_w : TradeIntent :=
  { id := "i-c8", underlying := "SPY", instrument_type := "STOCK",
    action := "BUY", order_type := "MARKET", quantity := 1 }

/-- Witness for C8_submitted_has_order_id: an id-less broker response on the
stock path gives ERROR with a null order id. -/
theorem C8_submitted_has_order_id_witness :
    (tradier_execute_stock stock_intent_w { id := none }).status = "ERROR" ∧
    (tradier_execute_stock stock_intent_w { id := none }).order_id = none :=
  (C8_submitted_has_order_id stock_intent_w { id := none }).2.1 rfl

/-- C3: requesting LIVE while live trading is not allowed resolves to paper;
requesting DUAL without dual allowed resolves to live or paper, never dual;
and the auto-controller evaluation without auto-live explicitly allowed is
forced to paper whatever was requested. -/
theorem C3_effective_mode_resolution (env : ModeEnv) (rs : String)
    (fa : Bool) :
    (get_requested_mode rs = "live" → is_live_allowed env = false →
      (get_effective_execution_mode env rs fa).effective = "paper") ∧
    (get_requested_mode rs = "dual" → is_dual_allowed env = false →
      ((get_effective_execution_mode env rs fa).effective = "live" ∨
       (get_effective_execution_mode env rs fa).effective = "paper")) ∧
    (is_auto_live_enabled env = false →
      (get_effective_execution_mode env rs true).effective = "paper") := by
  have hreq : (get_requested_mode rs == "live") = true ∨
      (get_requested_mode rs == "live") = false := by
    cases h : (get_requested_mode rs == "live") <;> simp
  refine ⟨fun hlive hnl => ?_, fun hdual hnd => ?_, fun hnal => ?_⟩
  · by_cases hfa : fa && !is_auto_live_enabled env
    · simp [get_effective_execution_mode, hfa]
      split <;> rfl
    · simp only [get_effective_execution_mode, hfa, if_false]
      have : (get_requested_mode rs == "dual") = false := by
        simp [hlive]
      simp [this, hlive, hnl]
  · by_cases hfa : fa && !is_auto_live_enabled env
    · right
      simp [get_effective_execution_mode, hfa]
      split <;> rfl
    · by_cases hla : is_live_allowed env
      · left
        simp [get_effective_execution_mode, hfa, hdual, hnd, hla]
      · right
        simp [get_effective_execution_mode, hfa, hdual, hnd, hla]
  · simp [get_effective_execution_mode, is_auto_live_enabled] at hnal ⊢
    simp [hnal]
    by_cases h1 : get_requested_mode rs = "live"
    · simp [h1]
    · by_cases h2 : get_requested_mode rs = "dual" <;> simp [h1, h2]

/-- Mode environment used in witnesses: live trading off, dry run on. -/
def mode_env_w : ModeEnv :=
  { live_trading := false, dry_run := true, allow_dual_mode := false,
    auto_live_enabled := false }

/-- Witness for C3_effective_mode_resolution: requesting live with live
trading not allowed yields paper. -/
theorem C3_effective_mode_resolution_witness :
    (get_effective_execution_mode mode_env_w "live" false).effective =
      "paper" :=
  (C3_effective_mode_resolution mode_env_w "live" false).1 rfl rfl

/-- Head of a filtered list is the first match. -/
theorem head_filter_eq_find (p : α → Bool) (l : List α) :
    (l.filter p).head? = l.find? p := by
  induction l with
  | nil => rfl
  | cons a t ih =>
    by_cases h : p a
    · simp [List.filter_cons, List.find?_cons, h]
    · simp [List.filter_cons, List.find?_cons, h, ih]

/-- Name of every entry produced by the completeness leg loop. -/
theorem completeness_leg_loop_name (legs : List IntentLegDict) (i : Int)
    (c : Check) (h : completeness_leg_loop legs i = some c) :
    c.name = "completeness" := by
  induction legs generalizing i with
  | nil => simp [completeness_leg_loop] at h
  | cons leg rest ih =>
    unfold completeness_leg_loop at h
    split at h
    · cases h; rfl
    · split at h
      · cases h; rfl
      · split at h
        · cases h; rfl
        · split at h
          · cases h; rfl
          · exact ih _ h

/-- check_completeness always records the check named "completeness". -/
theorem check_completeness_name (t : IntentDict) (p : ParsedSignal) :
    (check_completeness t p).name = "completeness" := by
  unfold check_completeness
  dsimp only
  repeat' split
  all_goals first
    | rfl
    | exact completeness_leg_loop_name _ _ _ (by assumption)

/-- check_supported_assets always records the check named
"supported_asset". -/
theorem check_supported_assets_name (t : IntentDict) :
    (check_supported_assets t).name = "supported_asset" := by
  unfold check_supported_assets
  dsimp only
  repeat' split
  all_goals rfl

/-- check_risk_mode always records the check named "risk_mode". -/
theorem check_risk_mode_name (p : ParsedSignal) (t : IntentDict)
    (s : CurrentSettings) (today : String) :
    (check_risk_mode p t s today).name = "risk_mode" := by
  unfold check_risk_mode
  dsimp only
  repeat' split
  all_goals rfl

/-- check_risk_controls always records the check named "risk_per_trade". -/
theorem check_risk_controls_name (p : ParsedSignal) (t : IntentDict)
    (s : CurrentSettings) :
    (check_risk_controls p t s).1.name = "risk_per_trade" := by
  unfold check_risk_controls
  dsimp only
  repeat' split
  all_goals rfl

/-- Name of every entry produced by the DTE leg loop. -/
theorem dte_leg_loop_name (a : Bool) (today : String)
    (legs : List IntentLegDict) (i : Int) (c : Check)
    (h : dte_leg_loop a today legs i = some c) : c.name = "dte_guard" := by
  induction legs generalizing i with
  | nil => simp [dte_leg_loop] at h
  | cons leg rest ih =>
    unfold dte_leg_loop at h
    split at h
    · exact ih _ h
    · split at h
      · cases h; rfl
      · split at h
        · cases h; rfl
        · exact ih _ h

/-- check_dte_guard always records the check named "dte_guard". -/
theorem check_dte_guard_name (t : IntentDict) (s : CurrentSettings)
    (today : String) : (check_dte_guard t s today).name = "dte_guard" := by
  unfold check_dte_guard
  dsimp only
  repeat' split
  all_goals first
    | rfl
    | exact dte_leg_loop_name _ _ _ _ _ (by assumption)

/-- check_mode_guard always records the check named "mode_guard". -/
theorem check_mode_guard_name (env : ModeEnv) (rs mode : String) :
    (check_mode_guard env rs mode).name = "mode_guard" := by
  unfold check_mode_guard
  dsimp only
  repeat' split
  all_goals rfl

/-- check_dedupe always records the check named "dedupe". -/
theorem check_dedupe_name (ledger : List DedupeRecord)
    (pid : Option String) : (check_dedupe ledger pid).name = "dedupe" := by
  unfold check_dedupe
  repeat' split
  all_goals rfl

/-- Option intent whose first leg is missing its expiration (an incomplete
required leg field). -/
def incomplete_leg_intent : IntentDict :=
  { instrument_type := "option", underlying := "SPY",
    legs := [{ side := "BUY", quantity := 1, strike := some 500,
               option_type := "CALL", expiration := "" }] }

/-- C6: preflight_check records its seven named checks in the fixed order,
`ok` is the conjunction of the recorded checks, `blocked_reason` is the
summary of the first failing check (none when all pass); and for an intent
missing a required leg field the completeness failure is the first recorded
check, before any risk or dedupe entry. -/
theorem C6_preflight_structure (ledger : List DedupeRecord) (env : ModeEnv)
    (settings : Settings) (today : String) (parsed : ParsedSignal)
    (intent : IntentDict) (mode : String) (pid : Option String) :
    ((preflight_check ledger env settings today parsed intent mode pid).checks.map
        (fun c => c.name) =
      ["completeness", "supported_asset", "risk_mode", "risk_per_trade",
       "dte_guard", "mode_guard", "dedupe"]) ∧
    ((preflight_check ledger env settings today parsed intent mode pid).ok =
      (preflight_check ledger env settings today parsed intent mode
        pid).checks.all (fun c => c.ok)) ∧
    ((preflight_check ledger env settings today parsed intent mode pid).ok =
        true →
      (preflight_check ledger env settings today parsed intent mode
        pid).blocked_reason = none) ∧
    ((preflight_check ledger env settings today parsed intent mode pid).ok =
        false →
      (preflight_check ledger env settings today parsed intent mode
        pid).blocked_reason =
        ((preflight_check ledger env settings today parsed intent mode
          pid).checks.find? (fun c => !c.ok)).map (fun c => c.summary)) ∧
    ((preflight_check [] mode_env_w {} "2026-10-10" {} incomplete_leg_intent
        "paper" none).checks.head? =
      some ⟨"completeness", false, "Leg 1 missing expiration"⟩ ∧
     (preflight_check [] mode_env_w {} "2026-10-10" {} incomplete_leg_intent
        "paper" none).ok = false ∧
     (preflight_check [] mode_env_w {} "2026-10-10" {} incomplete_leg_intent
        "paper" none).blocked_reason = some "Leg 1 missing expiration") := by
  refine ⟨?_, rfl, fun h => ?_, fun h => ?_, by decide, by decide, by decide⟩
  · simp only [preflight_check, List.map_cons, List.map_nil,
      check_completeness_name, check_supported_assets_name,
      check_risk_mode_name, check_risk_controls_name, check_dte_guard_name,
      check_mode_guard_name, check_dedupe_name]
  · simp only [preflight_check] at h ⊢
    simp [h]
  · simp only [preflight_check] at h ⊢
    rw [← head_filter_eq_find]
    simp [h]

/-- Membership is preserved by stable insertion. -/
theorem mem_insertSorted (le : α → α → Bool) (b : α) (l : List α) (a : α) :
    a ∈ insertSorted le b l ↔ a = b ∨ a ∈ l := by
  induction l with
  | nil => simp [insertSorted]
  | cons c t ih =>
    unfold insertSorted
    split
    · simp
    · simp [ih]
      tauto

/-- Membership is preserved by the stable sort. -/
theorem mem_pySort (le : α → α → Bool) (l : List α) (a : α) :
    a ∈ pySort le l ↔ a ∈ l := by
  induction l with
  | nil => simp [pySort]
  | cons c t ih => simp [pySort, mem_insertSorted, ih]

/-- mark_position_closed reports failure and leaves the ledger unchanged
when no OPEN position carries the id. -/
theorem mark_position_closed_no_open (positions : List PaperPosition)
    (id : String) (ci : IntentSnapshot) (now : String)
    (h : ∀ p ∈ positions, p.position_id = id → p.status ≠ "OPEN") :
    mark_position_closed positions id ci now = (false, positions) := by
  induction positions with
  | nil => rfl
  | cons pos rest ih =>
    unfold mark_position_closed
    have hcond : (pos.position_id == id && pos.status == "OPEN") = false := by
      by_cases hid : pos.position_id = id
      · have := h pos (by simp) hid
        simp [hid, this]
      · simp [hid]
    rw [hcond]
    simp only [Bool.false_eq_true, if_false]
    rw [ih (fun p hp => h p (by simp [hp]))]

/-- Filter form of the no-open-position condition. -/
theorem mark_position_closed_filter_nil (positions : List PaperPosition)
    (id : String) (ci : IntentSnapshot) (now : String)
    (h : positions.filter
      (fun q => q.position_id == id && q.status == "OPEN") = []) :
    mark_position_closed positions id ci now = (false, positions) := by
  apply mark_position_closed_no_open
  intro p hp hid hopen
  have : p ∈ positions.filter
      (fun q => q.position_id == id && q.status == "OPEN") := by
    simp [List.mem_filter, hp, hid, hopen]
  rw [h] at this
  simp at this

/-- Step equation of mark_position_closed on a cons cell. -/
theorem mark_position_closed_cons (pos : PaperPosition)
    (rest : List PaperPosition) (id : String) (ci : IntentSnapshot)
    (now : String) :
    mark_position_closed (pos :: rest) id ci now =
      if pos.position_id == id && pos.status == "OPEN" then
        (true,
          { pos with
            status := "CLOSED",
            closed_at := some now,
            close_intent := some ci } :: rest)
      else ((mark_position_closed rest id ci now).1,
        pos :: (mark_position_closed rest id ci now).2) := rfl

/-- With exactly one OPEN position carrying the id, closing succeeds, and a
second close on the result fails and changes nothing (OPEN to CLOSED happens
exactly once). -/
theorem mark_position_closed_unique (positions : List PaperPosition)
    (id : String) (ci : IntentSnapshot) (now : String) (p : PaperPosition)
    (h : positions.filter
      (fun q => q.position_id == id && q.status == "OPEN") = [p]) :
    (mark_position_closed positions id ci now).1 = true ∧
    ∀ ci2 now2,
      mark_position_closed (mark_position_closed positions id ci now).2 id
        ci2 now2 = (false, (mark_position_closed positions id ci now).2) := by
  induction positions with
  | nil => simp at h
  | cons pos rest ih =>
    by_cases hc : (pos.position_id == id && pos.status == "OPEN") = true
    · have hrest : rest.filter
          (fun q => q.position_id == id && q.status == "OPEN") = [] := by
        simp only [List.filter_cons, hc, if_true] at h
        exact (List.cons_eq_cons.mp h).2
      rw [mark_position_closed_cons, if_pos hc]
      refine ⟨rfl, fun ci2 now2 => ?_⟩
      rw [mark_position_closed_cons]
      rw [if_neg (by simp : ¬ ((({ pos with
            status := "CLOSED",
            closed_at := some now,
            close_intent := some ci } : PaperPosition).position_id == id &&
          ({ pos with
            status := "CLOSED",
            closed_at := some now,
            close_intent := some ci } : PaperPosition).status == "OPEN") = true))]
      rw [mark_position_closed_filter_nil rest id ci2 now2 hrest]
    · have hrest : rest.filter
          (fun q => q.position_id == id && q.status == "OPEN") = [p] := by
        simpa only [List.filter_cons, hc, if_false] using h
      obtain ⟨ih1, ih2⟩ := ih hrest
      rw [mark_position_closed_cons, if_neg hc]
      refine ⟨ih1, fun ci2 now2 => ?_⟩
      rw [mark_position_closed_cons, if_neg hc]
      rw [ih2 ci2 now2]

/-- Any position an EXIT signal resolves to is an OPEN position whose
underlying matches the signal ticker case-insensitively — never a different
ticker. -/
theorem find_open_position_ticker (positions : List PaperPosition)
    (sig : ParsedSignal) (q : PaperPosition)
    (h : find_open_position_for_exit positions sig = some q) :
    q.status = "OPEN" ∧
    pyUpper q.underlying = pyUpper (pyUpper sig.ticker) := by
  have hmem : q ∈ get_open_positions_for_ticker positions
      (pyUpper sig.ticker) := by
    unfold find_open_position_for_exit at h
    dsimp only at h
    split at h
    · exact absurd h (by simp)
    · split at h
      · exact absurd h (by simp)
      · rw [← mem_pySort openedDesc]
        split at h
        next pos heq =>
          rw [Option.some_inj.mp h] at heq
          split at heq
          · exact absurd heq (by simp)
          · exact List.mem_of_find?_eq_some heq
        next heq =>
          cases hs : pySort openedDesc
              (get_open_positions_for_ticker positions (pyUpper sig.ticker)) with
          | nil => rw [hs] at h; exact absurd h (by simp)
          | cons a t =>
            rw [hs] at h
            simp at h
            rw [h]
            simp
  rw [get_open_positions_for_ticker, List.mem_filter] at hmem
  have := hmem.2
  simp only [Bool.and_eq_true, beq_iff_eq] at this
  exact ⟨this.1, this.2⟩

/-- An EXIT signal with no open position for its ticker resolves to no
position at all. -/
theorem find_open_position_none (positions : List PaperPosition)
    (sig : ParsedSignal)
    (h : get_open_positions_for_ticker positions (pyUpper sig.ticker) = []) :
    find_open_position_for_exit positions sig = none := by
  unfold find_open_position_for_exit
  dsimp only
  split
  · rfl
  · rw [h]
    rfl

/-- An EXIT signal without explicit legs resolves to the single open
position for its ticker. -/
theorem find_open_position_single (positions : List PaperPosition)
    (sig : ParsedSignal) (p : PaperPosition)
    (hlegs : sig.legs = [])
    (ht : (pyUpper sig.ticker == "") = false)
    (h : get_open_positions_for_ticker positions (pyUpper sig.ticker) = [p]) :
    find_open_position_for_exit positions sig = some p := by
  unfold find_open_position_for_exit
  dsimp only
  rw [if_neg (by simp [ht] : ¬ (pyUpper sig.ticker == "") = true)]
  rw [h]
  simp [pySort, insertSorted, hlegs]

/-- C7: an ENTRY paper execution creates exactly one OPEN position; an EXIT
without explicit legs resolves through the case-insensitive ticker filter
and most-recent fallback to the single open position and closes it exactly
once; with no remaining open position for the ticker the resolution yields
none (never another ticker, as any resolved position matches the signal
ticker case-insensitively); and closing an already-closed or nonexistent id
reports failure and changes nothing. -/
theorem C7_position_lifecycle :
    (∀ (intent : TradeIntent) (positions : List PaperPosition)
        (oid pid now : String),
      (validate_intent intent).1 = true →
      intent.metadata.signal_type.getD "ENTRY" = "ENTRY" →
      ∃ pos,
        (paper_execute intent positions oid pid now).2 = positions ++ [pos] ∧
        pos.status = "OPEN" ∧ pos.underlying = intent.underlying ∧
        pos.position_id = pid ∧
        (paper_execute intent positions oid pid now).1.status = "SIMULATED") ∧
    (∀ (positions : List PaperPosition) (sig : ParsedSignal)
        (p : PaperPosition),
      sig.legs = [] → (pyUpper sig.ticker == "") = false →
      get_open_positions_for_ticker positions (pyUpper sig.ticker) = [p] →
      find_open_position_for_exit positions sig = some p) ∧
    (∀ (positions : List PaperPosition) (id : String) (ci : IntentSnapshot)
        (now : String) (p : PaperPosition),
      positions.filter
        (fun q => q.position_id == id && q.status == "OPEN") = [p] →
      (mark_position_closed positions id ci now).1 = true ∧
      ∀ ci2 now2,
        mark_position_closed (mark_position_closed positions id ci now).2 id
          ci2 now2 = (false, (mark_position_closed positions id ci now).2)) ∧
    (∀ (positions : List PaperPosition) (sig : ParsedSignal),
      get_open_positions_for_ticker positions (pyUpper sig.ticker) = [] →
      find_open_position_for_exit positions sig = none) ∧
    (∀ (positions : List PaperPosition) (sig : ParsedSignal)
        (q : PaperPosition),
      find_open_position_for_exit positions sig = some q →
      q.status = "OPEN" ∧
      pyUpper q.underlying = pyUpper (pyUpper sig.ticker)) ∧
    (∀ (positions : List PaperPosition) (id : String) (ci : IntentSnapshot)
        (now : String),
      (∀ p ∈ positions, p.position_id = id → p.status ≠ "OPEN") →
      mark_position_closed positions id ci now = (false, positions)) := by
  refine ⟨?_, find_open_position_single, mark_position_closed_unique,
    find_open_position_none, find_open_position_ticker,
    mark_position_closed_no_open⟩
  intro intent positions oid pid now hv hE
  have h1 : (!(validate_intent intent).1) = false := by rw [hv]; rfl
  have hcond : (intent.metadata.signal_type.getD "ENTRY" == "ENTRY" ||
      intent.action == "BUY_TO_OPEN" || intent.action == "SELL_TO_OPEN") =
      true := by
    rw [hE]
    simp
  unfold paper_execute
  dsimp only
  rw [h1]
  simp only [Bool.false_eq_true, if_false]
  rw [hcond]
  simp only [if_true, create_open_position, append_open_position]
  exact ⟨_, rfl, rfl, rfl, rfl, trivial⟩

/-- Open paper position used in witnesses. -/
def pos_w : PaperPosition :=
  { position_id := "pos-1", status := "OPEN",
    opened_at := "2026-10-09T10:00:00", underlying := "AAPL",
    instrument_type := "OPTION" }

/-- Close-intent snapshot used in witnesses. -/
def close_ci_w : IntentSnapshot :=
  { id := "i-x", action := "SELL_TO_CLOSE", order_type := "MARKET",
    limit_price := none }

/-- Witness for C7_position_lifecycle: closing the unique open position
succeeds. -/
theorem C7_position_lifecycle_witness :
    (mark_position_closed [pos_w] "pos-1" close_ci_w
      "2026-10-10T10:00:00").1 = true :=
  (C7_position_lifecycle.2.2.1 [pos_w] "pos-1" close_ci_w
    "2026-10-10T10:00:00" pos_w (by decide)).1

/-- The Tradier executor never returns one of the lowercase statuses the
controller success branch tests for. -/
theorem tradier_not_auto_success (d : Bool) (i : TradeIntent)
    (r : BrokerResponse) :
    auto_success_statuses.contains (tradier_execute d i r).status = false := by
  unfold tradier_execute tradier_execute_stock tradier_execute_option
    tradier_client_blocked
  dsimp only
  repeat' split
  all_goals rfl

/-- The paper executor never returns one of the lowercase statuses the
controller success branch tests for. -/
theorem paper_not_auto_success (i : TradeIntent) (p : List PaperPosition)
    (oid pid now : String) :
    auto_success_statuses.contains
      (paper_execute i p oid pid now).1.status = false := by
  unfold paper_execute
  dsimp only
  repeat' split
  all_goals rfl

/-- The historical executor never returns one of the lowercase statuses the
controller success branch tests for. -/
theorem historical_not_auto_success (i : TradeIntent)
    (hp : List (String × ℚ)) (oid : String) :
    auto_success_statuses.contains
      (historical_execute i hp oid).status = false := by
  unfold historical_execute
  dsimp only
  repeat' split
  all_goals rfl

/-- No executor reachable through the router ever returns one of the
lowercase statuses `("filled", "accepted", "success")` that the controller
success branch at `auto_mode.py` line 1152 tests for: ExecutionResult
statuses are the uppercase literals, so the branch is dead code. -/
theorem execute_trade_not_auto_success (cfg : RouterConfig)
    (i : TradeIntent) (p : List PaperPosition) (r : BrokerResponse)
    (hp : List (String × ℚ)) (oid pid now : String) :
    auto_success_statuses.contains
      (execute_trade cfg i p r hp oid pid now).1.status = false := by
  unfold execute_trade
  dsimp only
  repeat' split
  all_goals first
    | exact tradier_not_auto_success ..
    | exact paper_not_auto_success ..
    | exact historical_not_auto_success ..
    | rfl

/-- Safety can only pass in TRADIER_ONLY broker mode. -/
theorem safety_pass_broker_mode (cfg : AutoConfig)
    (h : (validate_auto_mode_safety cfg).1 = true) :
    cfg.broker_mode = "TRADIER_ONLY" := by
  unfold validate_auto_mode_safety at h
  dsimp only at h
  by_cases hb : cfg.broker_mode = "TRADIER_ONLY"
  · exact hb
  · exfalso
    simp only [List.isEmpty_iff, List.append_eq_nil] at h
    have hc := h.1.2
    rw [if_pos (by simp [hb] :
      (cfg.broker_mode != "TRADIER_ONLY") = true)] at hc
    simp at hc

/-- Under TRADIER_ONLY routing the executor never touches the paper position
ledger. -/
theorem execute_trade_tradier_positions (cfg : RouterConfig)
    (i : TradeIntent) (p : List PaperPosition) (r : BrokerResponse)
    (hp : List (String × ℚ)) (oid pid now : String)
    (h : cfg.broker_mode = "TRADIER_ONLY") :
    (execute_trade cfg i p r hp oid pid now).2 = p := by
  unfold execute_trade get_executor
  dsimp only
  rw [h]
  simp

theorem auto_tick_selected_preserves (cfg : AutoConfig) (now : NowInfo)
    (fresh : FreshIds) (resp : BrokerResponse) (st : AutoState)
    (counters0 : Counters) (sel : ListedSignal)
    (hb : cfg.broker_mode = "TRADIER_ONLY") :
    ((auto_tick_selected cfg now fresh resp st counters0 sel).2).ledger =
      st.ledger ∧
    ((auto_tick_selected cfg now fresh resp st counters0 sel).2).positions =
      st.positions := by
  unfold auto_tick_selected
  dsimp only
  repeat' split
  all_goals try exact ⟨rfl, rfl⟩
  all_goals try exact ⟨rfl, execute_trade_tradier_positions _ _ _ _ _ _ _ _ hb⟩
  all_goals
    exfalso
  all_goals
    simp only [execute_trade_not_auto_success] at *
  all_goals
    exact Bool.false_ne_true (by assumption)

theorem auto_tick_gated_preserves (cfg : AutoConfig) (now : NowInfo)
    (fresh : FreshIds) (resp : BrokerResponse) (st : AutoState)
    (counters0 : Counters)
    (hb : cfg.broker_mode = "TRADIER_ONLY") :
    ((auto_tick_gated cfg now fresh resp st counters0).2).ledger =
      st.ledger ∧
    ((auto_tick_gated cfg now fresh resp st counters0).2).positions =
      st.positions := by
  unfold auto_tick_gated
  dsimp only
  split
  · exact ⟨rfl, rfl⟩
  · exact auto_tick_selected_preserves cfg now fresh resp st counters0 _ hb

theorem auto_tick_preserves (cfg : AutoConfig) (now : NowInfo)
    (fresh : FreshIds) (resp : BrokerResponse) (st : AutoState) :
    ((auto_tick cfg now fresh resp st).2).ledger = st.ledger ∧
    ((auto_tick cfg now fresh resp st).2).positions = st.positions := by
  unfold auto_tick
  dsimp only
  split
  · split <;> exact ⟨rfl, rfl⟩
  · next hsf =>
    have hpass : (validate_auto_mode_safety cfg).1 = true := by
      simpa using hsf
    have hb := safety_pass_broker_mode cfg hpass
    repeat' split
    all_goals try exact ⟨rfl, rfl⟩
    exact auto_tick_gated_preserves cfg now fresh resp _ _ hb

/-- Safety-passing controller configuration (paper mode, TRADIER_ONLY, no
kill switch, inside the trading window). -/
def good_cfg : AutoConfig :=
  { dry_run := true, live_trading := false, broker_mode := "TRADIER_ONLY",
    kill_switch := false, auto_enabled_env := false, within_window := true,
    mode_env := mode_env_w, settings := {} }

/-- Clock projections for one concrete tick. -/
def now_w : NowInfo :=
  { today := "2026-10-10", current_hour := "2026-10-10-14",
    now_iso := "2026-10-10T14:00:00" }

/-- Fresh identifiers for the first concrete tick. -/
def fresh_w1 : FreshIds :=
  { intent_id := "ti-1", order_id := "ord-1", position_id := "pp-1" }

/-- Fresh identifiers for the second concrete tick. -/
def fresh_w2 : FreshIds :=
  { intent_id := "ti-2", order_id := "ord-2", position_id := "pp-2" }

/-- A fresh, preflight-passing ENTRY signal (single-leg AAPL call). -/
def entry_signal_w : SignalEntry :=
  { post_id := "post-001", classification := "SIGNAL",
    parsed_signal :=
      { ticker := "AAPL", strategy := "LONG_OPTION", raw_text := "",
        expiration := some "2026-11-20",
        legs := [{ side := some "BUY", quantity := some 1,
                   strike := some 200, option_type := some "CALL",
                   expiration := some "2026-11-20" }],
        limit_min := 0, limit_max := 2, limit_kind := "DEBIT",
        quantity := 1 } }

/-- Controller state holding exactly the fresh ENTRY signal, empty dedupe
and position ledgers, current counter keys. -/
def st_w : AutoState :=
  { auto_enabled := true, safety_checks_passed := true,
    counters := { last_trade_date := some "2026-10-10",
                  last_trade_hour := some "2026-10-10-14" },
    ledger := [], positions := [], alerts := [entry_signal_w],
    review_actions := [] }

/-- C1 (code bug): the controller can never record a DedupeRecord or create
a PaperPosition at all — the success branch compares the ExecutionResult
status against lowercase strings no executor produces — and concretely,
driving auto_tick twice over the same fresh signal attempts execution both
times ("failed" twice, since the Tradier client is blocked under DRY_RUN),
writes no DedupeRecord, and the second call is not rejected at the dedupe
check. -/
theorem C1_at_most_once_broken :
    (∀ (cfg : AutoConfig) (now : NowInfo) (fresh : FreshIds)
        (resp : BrokerResponse) (st : AutoState),
      ((auto_tick cfg now fresh resp st).2).ledger = st.ledger ∧
      ((auto_tick cfg now fresh resp st).2).positions = st.positions) ∧
    ((auto_tick good_cfg now_w fresh_w1 {} st_w).1.action = "failed" ∧
     (auto_tick good_cfg now_w fresh_w2 {}
       (auto_tick good_cfg now_w fresh_w1 {} st_w).2).1.action = "failed" ∧
     ((auto_tick good_cfg now_w fresh_w2 {}
       (auto_tick good_cfg now_w fresh_w1 {} st_w).2).2).ledger = [] ∧
     ((auto_tick good_cfg now_w fresh_w2 {}
       (auto_tick good_cfg now_w fresh_w1 {} st_w).2).2).positions = []) := by
  refine ⟨auto_tick_preserves, ?_⟩
  set_option maxRecDepth 8000 in decide

/-- Safety-failing configuration: the kill switch is enabled. -/
def bad_cfg : AutoConfig := { good_cfg with kill_switch := true }

/-- Controller state whose cached safety flag is already false while the
controller is still enabled. -/
def st_c2 : AutoState := { st_w with safety_checks_passed := false }

/-- C2 counterexample: on a tick whose safety validation fails but whose
cached safety flag was already false, the controller does NOT disable
itself (auto_enabled stays true), contradicting the claim that any failing
tick disables the controller. -/
theorem C2_counterexample :
    (validate_auto_mode_safety bad_cfg).1 = false ∧
    st_c2.auto_enabled = true ∧
    (auto_tick bad_cfg now_w fresh_w1 {} st_c2).1.action = "blocked" ∧
    ((auto_tick bad_cfg now_w fresh_w1 {} st_c2).2).auto_enabled = true := by
  decide

/-- C2 (amended): a tick whose safety validation fails performs no signal
selection or execution (dedupe and position ledgers untouched), returns
outcome "blocked", records the triggering reason in the counters file, and
disables the controller on a passing-to-failing transition of the cached
safety flag; when the cached flag was already false the enabled flag is
left as it was (but the tick still never proceeds). -/
theorem C2_fail_closed (cfg : AutoConfig) (now : NowInfo) (fresh : FreshIds)
    (resp : BrokerResponse) (st : AutoState)
    (h : (validate_auto_mode_safety cfg).1 = false) :
    (auto_tick cfg now fresh resp st).1.action = "blocked" ∧
    ((auto_tick cfg now fresh resp st).2).ledger = st.ledger ∧
    ((auto_tick cfg now fresh resp st).2).positions = st.positions ∧
    ((auto_tick cfg now fresh resp st).2).counters.last_action =
      some ("BLOCKED: Safety check failed - " ++
        (validate_auto_mode_safety cfg).2.headD "") ∧
    (st.safety_checks_passed = true →
      ((auto_tick cfg now fresh resp st).2).auto_enabled = false ∧
      ((auto_tick cfg now fresh resp st).2).safety_checks_passed = false) ∧
    (st.safety_checks_passed = false →
      ((auto_tick cfg now fresh resp st).2).auto_enabled =
        st.auto_enabled) := by
  have hcond : (!(validate_auto_mode_safety cfg).1) = true := by
    rw [h]; rfl
  unfold auto_tick
  dsimp only
  rw [if_pos hcond]
  refine ⟨rfl, ?_, ?_, rfl, fun hsp => ?_, fun hsp => ?_⟩
  · split <;> rfl
  · split <;> rfl
  · rw [if_pos hsp]
    exact ⟨rfl, rfl⟩
  · rw [if_neg (by simp [hsp])]

/-- Witness for C2_fail_closed at the kill-switch configuration with a
previously passing safety flag. -/
theorem C2_fail_closed_witness :
    (auto_tick bad_cfg now_w fresh_w1 {} st_w).1.action = "blocked" ∧
    ((auto_tick bad_cfg now_w fresh_w1 {} st_w).2).auto_enabled = false :=
  ⟨(C2_fail_closed bad_cfg now_w fresh_w1 {} st_w (by decide)).1,
   ((C2_fail_closed bad_cfg now_w fresh_w1 {} st_w (by decide)).2.2.2.2.1
     (by decide)).1⟩

/-- Counter reset is a no-op when both period keys are current. -/
theorem reset_counters_noop (c : Counters) (today hour : String)
    (hd : c.last_trade_date = some today)
    (hh : c.last_trade_hour = some hour) :
    reset_counters_if_needed c today hour = c := by
  unfold reset_counters_if_needed
  rw [show (c.last_trade_date != some today) = false by simp [hd]]
  simp only [Bool.false_eq_true, if_false]
  rw [show (c.last_trade_hour != some hour) = false by simp [hh]]
  simp only [Bool.false_eq_true, if_false]

/-- A tick that reaches the rate-limit gates with any ceiling met returns
outcome "limit". -/
theorem auto_tick_limit_action (cfg : AutoConfig) (now : NowInfo)
    (fresh : FreshIds) (resp : BrokerResponse) (st : AutoState)
    (hs : (validate_auto_mode_safety cfg).1 = true)
    (he : (st.auto_enabled || cfg.auto_enabled_env) = true)
    (hw : cfg.within_window = true)
    (hd : st.counters.last_trade_date = some now.today)
    (hh : st.counters.last_trade_hour = some now.current_hour)
    (hlim : cfg.max_daily ≤ st.counters.trades_today ∨
      cfg.max_hourly ≤ st.counters.trades_this_hour ∨
      cfg.max_notional ≤ st.counters.notional_today) :
    (auto_tick cfg now fresh resp st).1.action = "limit" := by
  unfold auto_tick
  dsimp only
  rw [if_neg (by simp [hs])]
  rw [reset_counters_noop st.counters now.today now.current_hour hd hh]
  rw [if_neg (by rcases Bool.or_eq_true_iff.mp he with h | h <;> simp [h])]
  rw [if_neg (by simp [hw])]
  by_cases h1 : cfg.max_daily ≤ st.counters.trades_today
  · rw [if_pos h1]
  · rw [if_neg h1]
    by_cases h2 : cfg.max_hourly ≤ st.counters.trades_this_hour
    · rw [if_pos h2]
    · rw [if_neg h2]
      by_cases h3 : cfg.max_notional ≤ st.counters.notional_today
      · rw [if_pos h3]
      · rcases hlim with h | h | h
        · exact absurd h h1
        · exact absurd h h2
        · exact absurd h h3

/-- C4: a tick whose counters already meet or exceed any of the three
ceilings returns outcome "limit" and performs no execution, and its outcome
is independent of the stored signals (selection is never reached); in
particular tradesToday = maxDaily gives "limit". Counters reset on the
calendar-day and hour-bucket rollovers exactly as claimed. -/
theorem C4_rate_limiting :
    (∀ (cfg : AutoConfig) (now : NowInfo) (fresh : FreshIds)
        (resp : BrokerResponse) (st : AutoState),
      (validate_auto_mode_safety cfg).1 = true →
      (st.auto_enabled || cfg.auto_enabled_env) = true →
      cfg.within_window = true →
      st.counters.last_trade_date = some now.today →
      st.counters.last_trade_hour = some now.current_hour →
      (cfg.max_daily ≤ st.counters.trades_today ∨
       cfg.max_hourly ≤ st.counters.trades_this_hour ∨
       cfg.max_notional ≤ st.counters.notional_today) →
      (auto_tick cfg now fresh resp st).1.action = "limit" ∧
      ((auto_tick cfg now fresh resp st).2).ledger = st.ledger ∧
      ((auto_tick cfg now fresh resp st).2).positions = st.positions ∧
      (∀ alerts2 : List SignalEntry,
        (auto_tick cfg now fresh resp
          { st with alerts := alerts2 }).1.action = "limit")) ∧
    (∀ (c : Counters) (today hour : String),
      (c.last_trade_date ≠ some today →
        (reset_counters_if_needed c today hour).trades_today = 0 ∧
        (reset_counters_if_needed c today hour).notional_today = 0 ∧
        (reset_counters_if_needed c today hour).last_trade_date =
          some today) ∧
      (c.last_trade_hour ≠ some hour →
        (reset_counters_if_needed c today hour).trades_this_hour = 0 ∧
        (reset_counters_if_needed c today hour).last_trade_hour =
          some hour) ∧
      (c.last_trade_date = some today → c.last_trade_hour = some hour →
        reset_counters_if_needed c today hour = c)) := by
  constructor
  · intro cfg now fresh resp st hs he hw hd hh hlim
    refine ⟨auto_tick_limit_action cfg now fresh resp st hs he hw hd hh hlim,
      (auto_tick_preserves cfg now fresh resp st).1,
      (auto_tick_preserves cfg now fresh resp st).2,
      fun alerts2 => auto_tick_limit_action cfg now fresh resp
        { st with alerts := alerts2 } hs he hw hd hh hlim⟩
  · intro c today hour
    refine ⟨fun hnd => ?_, fun hnh => ?_, reset_counters_noop c today hour⟩
    · unfold reset_counters_if_needed
      rw [show (c.last_trade_date != some today) = true by simp [hnd]]
      simp only [if_true]
      split <;> exact ⟨rfl, rfl, rfl⟩
    · unfold reset_counters_if_needed
      split
      all_goals rw [if_pos (by simp [hnh])]
      all_goals exact ⟨rfl, rfl⟩

/-- Witness for C4_rate_limiting: with tradesToday = maxDaily = 10 the tick
returns "limit". -/
theorem C4_rate_limiting_witness :
    (auto_tick good_cfg now_w fresh_w1 {}
      { st_w with counters := { st_w.counters with
          trades_today := 10 } }).1.action = "limit" :=
  (C4_rate_limiting.1 good_cfg now_w fresh_w1 {}
    { st_w with counters := { st_w.counters with trades_today := 10 } }
    (by decide) (by decide) (by decide) (by decide) (by decide)
    (Or.inl (by decide))).1

/-- A tick that passes safety, the enabled and window gates, and all three
ceilings proceeds to the signal-selection stage. -/
theorem auto_tick_reaches_selection (cfg : AutoConfig) (now : NowInfo)
    (fresh : FreshIds) (resp : BrokerResponse) (st : AutoState)
    (hs : (validate_auto_mode_safety cfg).1 = true)
    (he : (st.auto_enabled || cfg.auto_enabled_env) = true)
    (hw : cfg.within_window = true)
    (hd : st.counters.last_trade_date = some now.today)
    (hh : st.counters.last_trade_hour = some now.current_hour)
    (h1 : st.counters.trades_today < cfg.max_daily)
    (h2 : st.counters.trades_this_hour < cfg.max_hourly)
    (h3 : st.counters.notional_today < cfg.max_notional) :
    auto_tick cfg now fresh resp st =
      auto_tick_gated cfg now fresh resp
        { st with safety_checks_passed := true }
        { st.counters with last_tick_time := some now.now_iso } := by
  unfold auto_tick
  dsimp only
  rw [if_neg (by simp [hs])]
  rw [reset_counters_noop st.counters now.today now.current_hour hd hh]
  rw [if_neg (by rcases Bool.or_eq_true_iff.mp he with h | h <;> simp [h])]
  rw [if_neg (by simp [hw])]
  rw [if_neg (not_le.mpr h1), if_neg (not_le.mpr h2), if_neg (not_le.mpr h3)]

/-- C5 (amended): on a tick that passes safety and rate limits the
controller selects the first (newest, since the listing is newest-first)
entry that is a SIGNAL, unexecuted, and of type ENTRY; EXIT signals are
never selected by the automatic loop (the EXIT arm of the selection loop is
a no-op), and with no unexecuted ENTRY the tick is idle with no
execution. -/
theorem C5_entry_only_selection (cfg : AutoConfig) (now : NowInfo)
    (fresh : FreshIds) (resp : BrokerResponse) (st : AutoState)
    (hs : (validate_auto_mode_safety cfg).1 = true)
    (he : (st.auto_enabled || cfg.auto_enabled_env) = true)
    (hw : cfg.within_window = true)
    (hd : st.counters.last_trade_date = some now.today)
    (hh : st.counters.last_trade_hour = some now.current_hour)
    (h1 : st.counters.trades_today < cfg.max_daily)
    (h2 : st.counters.trades_this_hour < cfg.max_hourly)
    (h3 : st.counters.notional_today < cfg.max_notional) :
    ((list_recent_signals st.ledger st.alerts 50).find? (fun sig =>
        sig.classification == "SIGNAL" && !sig.already_executed &&
        sig.signal_type == "ENTRY") = none →
      (auto_tick cfg now fresh resp st).1.action = "idle" ∧
      ((auto_tick cfg now fresh resp st).2).ledger = st.ledger ∧
      ((auto_tick cfg now fresh resp st).2).positions = st.positions) ∧
    (∀ s, (list_recent_signals st.ledger st.alerts 50).find? (fun sig =>
        sig.classification == "SIGNAL" && !sig.already_executed &&
        sig.signal_type == "ENTRY") = some s →
      s.signal_type = "ENTRY" ∧ s.classification = "SIGNAL" ∧
      s.already_executed = false) ∧
    (∀ s, s.signal_type = "EXIT" →
      (list_recent_signals st.ledger st.alerts 50).find? (fun sig =>
        sig.classification == "SIGNAL" && !sig.already_executed &&
        sig.signal_type == "ENTRY") ≠ some s) := by
  have hprops : ∀ s, (list_recent_signals st.ledger st.alerts 50).find?
      (fun sig => sig.classification == "SIGNAL" && !sig.already_executed &&
        sig.signal_type == "ENTRY") = some s →
      s.signal_type = "ENTRY" ∧ s.classification = "SIGNAL" ∧
      s.already_executed = false := by
    intro s hfind
    have hp := List.find?_some hfind
    simp only [Bool.and_eq_true, beq_iff_eq] at hp
    exact ⟨hp.2, hp.1.1, by simpa using hp.1.2⟩
  refine ⟨fun hsel => ?_, hprops, fun s hexit hsome => ?_⟩
  · rw [auto_tick_reaches_selection cfg now fresh resp st hs he hw hd hh
      h1 h2 h3]
    unfold auto_tick_gated
    dsimp only
    rw [hsel]
    exact ⟨rfl, rfl, rfl⟩
  · have := (hprops s hsome).1
    rw [hexit] at this
    simp at this

/-- Witness for C5_entry_only_selection: with no stored signals the tick is
idle. -/
theorem C5_entry_only_selection_witness :
    (auto_tick good_cfg now_w fresh_w1 {}
      { st_w with alerts := [] }).1.action = "idle" :=
  ((C5_entry_only_selection good_cfg now_w fresh_w1 {}
    { st_w with alerts := [] } (by decide) (by decide) (by decide)
    (by decide) (by decide) (by decide) (by decide) (by decide)).1
    (by decide)).1

/-- A fresh EXIT signal with complete leg detail for a ticker with an open
paper position. -/
def exit_signal_w : SignalEntry :=
  { post_id := "post-ex1", classification := "SIGNAL",
    parsed_signal :=
      { ticker := "AAPL", strategy := "EXIT",
        raw_text := "exit AAPL position",
        expiration := some "2026-11-20",
        legs := [{ side := some "SELL", quantity := some 1,
                   strike := some 200, option_type := some "CALL",
                   expiration := some "2026-11-20" }],
        limit_min := 1, limit_max := 0, limit_kind := "CREDIT",
        quantity := 1 } }

/-- Controller state holding only the executable EXIT signal plus a
matching open position. -/
def st_c5 : AutoState :=
  { st_w with alerts := [exit_signal_w], positions := [pos_w] }

/-- C5 counterexample: an unexecuted EXIT signal with complete leg detail
and a resolvable open position is never considered — the tick is idle and
the open position stays open, contradicting the claim that EXIT signals
are considered when no ENTRY exists. -/
theorem C5_counterexample :
    classify_signal_type exit_signal_w.parsed_signal = "EXIT" ∧
    has_complete_leg_details exit_signal_w.parsed_signal = true ∧
    is_executed st_c5.ledger exit_signal_w.post_id = false ∧
    find_open_position_for_exit st_c5.positions
      exit_signal_w.parsed_signal = some pos_w ∧
    (auto_tick good_cfg now_w fresh_w1 {} st_c5).1.action = "idle" ∧
    ((auto_tick good_cfg now_w fresh_w1 {} st_c5).2).positions = [pos_w] := by
  decide

/-- Witness for C6_preflight_structure: at the incomplete-leg intent the
blocked reason is the summary of the first failing check. -/
theorem C6_preflight_structure_witness :
    (preflight_check [] mode_env_w {} "2026-10-10" {} incomplete_leg_intent
      "paper" none).blocked_reason =
      ((preflight_check [] mode_env_w {} "2026-10-10" {}
        incomplete_leg_intent "paper" none).checks.find?
          (fun c => !c.ok)).map (fun c => c.summary) :=
  (C6_preflight_structure [] mode_env_w {} "2026-10-10" {}
    incomplete_leg_intent "paper" none).2.2.2.1 (by decide)
